import Mathlib

/-!
# LegacyClient.cpp: a trace model of the COM demonstration client

`LegacyClient.cpp` is straight-line glue code: it brackets its work in
`CoInitialize`/`CoUninitialize`, creates two COM objects, hands an image buffer
to a script and prints a timing string.  Everything interesting happens in
components that are not part of the sources (the COM runtime, the
`ScriptHost` type library, `CImg.h`), so the model is parametric in them:

* `Extern σ` collects the behaviour of every external function the program
  calls, as a function of an arbitrary world state `σ` that is threaded
  through the calls in program order;
* the program itself (`COMInit`, `CheckedHRESULT`, `main`) is translated
  statement by statement into a state-and-exception passing style;
* every external call written in the source appends an `Event` (the call with
  its arguments, and what it returned) to a trace, and text sent to
  `std::cout` is accumulated in `out`.

Calls that the C++ library wrappers make implicitly (reference counting in
`CComPtr`, `BSTR` allocation in `_bstr_t`, the destructors of the `CImg`
objects) are not written in `LegacyClient.cpp` and are not recorded.  Text
that a library string object (`_bstr_t`, `TCHAR*`) contributes to `std::cout`
is represented by a `String` supplied by the environment.
-/

namespace LegacyClient

/-! ## Values -/

/-- `HRESULT` is a signed 32-bit integer; only its sign is ever inspected. -/
abbrev HRESULT := Int

/-- Interface pointers held by the two `CComPtr`s. -/
abbrev Ptr := Nat

def S_OK : HRESULT := 0

def S_FALSE : HRESULT := 1

def E_FAIL : HRESULT := -2147467259

/-- `SUCCEEDED(hr)` of the Windows headers, the sign test `((HRESULT)(hr)) >= 0`. -/
def SUCCEEDED (hr : HRESULT) : Bool := decide (0 ≤ hr)

/-- The two class identifiers obtained by `__uuidof` from `ScriptHost.tlb`. -/
inductive Clsid where
  | ScriptRunner
  | ScriptParams
  deriving DecidableEq, Repr

/-- A `cimg_library::CImg<unsigned char>` object as far as `main` observes it:
what `width()`, `height()` and `begin()` return (`begin()` is the address of
the first byte of the pixel buffer, as passed through `(long long)`), and
whether the object is a shared view on memory owned by another image. -/
structure CImg where
  width : Int
  height : Int
  data : Int
  is_shared : Bool
  deriving DecidableEq, Repr

/-! ## External calls and traces -/

/-- The external calls written in `LegacyClient.cpp`, with their arguments. -/
inductive Call where
  | CoInitialize
  | CoCreateInstance (rclsid : Clsid)
  | LoadScript (self : Ptr) (path entry : String)
  | SetParam (self : Ptr) (name value : String)
  | CImg_load (filename : String)
  | SetImage (self : Ptr) (name : String) (width height stride data : Int)
  | Execute (self : Ptr) (params : Ptr)
  | GetResult (self : Ptr) (name : String)
  | cout (text : String)
  | save_bmp (img : CImg) (filename : String)
  | GetErrorInfo
  | CoUninitialize
  deriving DecidableEq, Repr

/-- What an external call handed back. -/
inductive Ret where
  | void
  | hresult (hr : HRESULT)
  | created (hr : HRESULT) (p : Ptr)
  | image (img : CImg)
  | result (hr : HRESULT) (value : String)
  | errorInfo (description : String)
  | threw
  deriving DecidableEq, Repr

structure Event where
  call : Call
  ret : Ret
  deriving DecidableEq, Repr

/-- The `HRESULT` an event carries, if the call returns one. -/
def Ret.hr? : Ret → Option HRESULT
  | .hresult hr => some hr
  | .created hr _ => some hr
  | .result hr _ => some hr
  | _ => none

/-- The calls whose `HRESULT` `main` stores into the `CheckedHRESULT hr`:
both `CoCreateInstance`s, `LoadScript`, `SetImage`, `Execute`, `GetResult`. -/
def Call.checked : Call → Bool
  | .CoCreateInstance _ => true
  | .LoadScript _ _ _ => true
  | .SetImage _ _ _ _ _ _ => true
  | .Execute _ _ => true
  | .GetResult _ _ => true
  | _ => false

/-- The `HRESULT`s returned by the checked calls of a trace, in call order. -/
def checkedResults (tr : List Event) : List HRESULT :=
  tr.filterMap fun ev => if ev.call.checked then ev.ret.hr? else none

/-- The calls of a trace, results dropped. -/
def calls (tr : List Event) : List Call := tr.map Event.call

/-- Behaviour of everything `main` calls that is not defined in
`LegacyClient.cpp`.  Each function sees the current world and returns its
result with the next world, so a result may depend on all earlier calls. -/
structure Extern (σ : Type) where
  CoInitialize : σ → HRESULT × σ
  CoUninitialize : σ → σ
  /-- The call `CComPtr::CoCreateInstance(rclsid, NULL, CLSCTX_ALL)`: the `HRESULT` and the pointer stored. -/
  CoCreateInstance : Clsid → σ → (HRESULT × Ptr) × σ
  LoadScript : Ptr → String → String → σ → HRESULT × σ
  SetParam : Ptr → String → String → σ → HRESULT × σ
  /-- The constructor `CImg<unsigned char>{filename}`; `none` when it throws a `CImgException`. -/
  CImg_load : String → σ → Option CImg × σ
  /-- The member `CImg::get_shared_channel(c0)`; `none` when it throws a `CImgException`. -/
  get_shared_channel : CImg → Nat → Option CImg
  SetImage : Ptr → String → Int → Int → Int → Int → σ → HRESULT × σ
  Execute : Ptr → Ptr → σ → HRESULT × σ
  /-- The call `GetResult(name, bstr.GetAddress())`: the `HRESULT` and the text left in the `_bstr_t`. -/
  GetResult : Ptr → String → σ → (HRESULT × String) × σ
  /-- The member `CImg::save_bmp(filename)`; `false` when it throws a `CImgException`. -/
  save_bmp : CImg → String → σ → Bool × σ
  /-- The call `GetErrorInfo(NULL, &pErrorInfo)`; the text `_com_error::Description()` later yields. -/
  GetErrorInfo : σ → String × σ
  /-- The text `_com_error::ErrorMessage()` yields for an `HRESULT`. -/
  ErrorMessage : HRESULT → String

/-- Program state: the world outside, the calls made so far, and `std::cout`. -/
structure St (σ : Type) where
  world : σ
  trace : List Event
  out : String

/-- The C++ exceptions that can travel through `main`. -/
inductive Exn where
  | _com_error (hr : HRESULT) (description : String)
  | CImgException
  deriving DecidableEq, Repr

/-- A statement: runs on a state, ends normally with a value or by a throw. -/
def Prog (σ α : Type) : Type := St σ → Except Exn α × St σ

namespace Prog

variable {σ α β : Type}

def pure (a : α) : Prog σ α := fun s => (.ok a, s)

def bind (m : Prog σ α) (f : α → Prog σ β) : Prog σ β := fun s =>
  match m s with
  | (.ok a, s') => f a s'
  | (.error e, s') => (.error e, s')

def throw (e : Exn) : Prog σ α := fun s => (.error e, s)

instance : Monad (Prog σ) where
  pure := Prog.pure
  bind := Prog.bind

/-- Perform an external call and record it. -/
def perform (c : Call) (f : σ → α × σ) (ret : α → Ret) : Prog σ α := fun s =>
  (.ok (f s.world).1,
    { s with world := (f s.world).2, trace := s.trace ++ [⟨c, ret (f s.world).1⟩] })

end Prog

variable {σ : Type}

/-! ## The wrappers around the external calls -/

def CoInitialize (E : Extern σ) : Prog σ HRESULT :=
  Prog.perform .CoInitialize E.CoInitialize .hresult

def CoUninitialize (E : Extern σ) : Prog σ Unit :=
  Prog.perform Call.CoUninitialize (fun w => ((), E.CoUninitialize w)) (fun _ => .void)

def CoCreateInstance (E : Extern σ) (rclsid : Clsid) : Prog σ (HRESULT × Ptr) :=
  Prog.perform (.CoCreateInstance rclsid) (E.CoCreateInstance rclsid) (fun r => .created r.1 r.2)

def LoadScript (E : Extern σ) (self : Ptr) (path entry : String) : Prog σ HRESULT :=
  Prog.perform (.LoadScript self path entry) (E.LoadScript self path entry) .hresult

def SetParam (E : Extern σ) (self : Ptr) (name value : String) : Prog σ HRESULT :=
  Prog.perform (.SetParam self name value) (E.SetParam self name value) .hresult

def SetImage (E : Extern σ) (self : Ptr) (name : String) (width height stride data : Int) :
    Prog σ HRESULT :=
  Prog.perform (.SetImage self name width height stride data)
    (E.SetImage self name width height stride data) .hresult

def Execute (E : Extern σ) (self params : Ptr) : Prog σ HRESULT :=
  Prog.perform (.Execute self params) (E.Execute self params) .hresult

def GetResult (E : Extern σ) (self : Ptr) (name : String) : Prog σ (HRESULT × String) :=
  Prog.perform (.GetResult self name) (E.GetResult self name) (fun r => .result r.1 r.2)

def GetErrorInfo (E : Extern σ) : Prog σ String :=
  Prog.perform .GetErrorInfo E.GetErrorInfo .errorInfo

/-- The statement `std::cout << ... << std::endl;` with the whole line as `text`. -/
def cout (text : String) : Prog σ Unit := fun s =>
  (.ok (), { s with out := s.out ++ text, trace := s.trace ++ [⟨.cout text, .void⟩] })

/-- The constructor `cimg_library::CImg<unsigned char> img{ filename };`. -/
def CImg.load (E : Extern σ) (filename : String) : Prog σ CImg := fun s =>
  match (E.CImg_load filename s.world).1 with
  | some img =>
    (.ok img, { s with world := (E.CImg_load filename s.world).2,
                       trace := s.trace ++ [⟨.CImg_load filename, .image img⟩] })
  | none =>
    (.error .CImgException, { s with world := (E.CImg_load filename s.world).2,
                                     trace := s.trace ++ [⟨.CImg_load filename, .threw⟩] })

/-- The member call `img.get_shared_channel(c0)`; works on memory of the process only. -/
def CImg.get_shared_channel (E : Extern σ) (img : CImg) (c0 : Nat) : Prog σ CImg :=
  match E.get_shared_channel img c0 with
  | some ch => Prog.pure ch
  | none => Prog.throw .CImgException

/-- The member call `img.save_bmp(filename);`. -/
def CImg.save_bmp (E : Extern σ) (img : CImg) (filename : String) : Prog σ Unit := fun s =>
  if (E.save_bmp img filename s.world).1 then
    (.ok (), { s with world := (E.save_bmp img filename s.world).2,
                      trace := s.trace ++ [⟨.save_bmp img filename, .void⟩] })
  else
    (.error .CImgException, { s with world := (E.save_bmp img filename s.world).2,
                                     trace := s.trace ++ [⟨.save_bmp img filename, .threw⟩] })

/-! ## `struct COMInit` -/

/-- `COMInit() { CoInitialize(NULL); }`: the `HRESULT` is discarded. -/
def COMInit.ctor (E : Extern σ) : Prog σ Unit := do
  let _ ← CoInitialize E
  return ()

/-- `~COMInit() { CoUninitialize(); }`. -/
def COMInit.dtor (E : Extern σ) : Prog σ Unit :=
  CoUninitialize E

/-! ## `class CheckedHRESULT` -/

structure CheckedHRESULT where
  m_hr : HRESULT
  deriving DecidableEq, Repr

namespace CheckedHRESULT

/-- `CheckedHRESULT() : m_hr(S_OK) {}`. -/
def default : CheckedHRESULT := ⟨S_OK⟩

/-- `void check()`: throws `_com_error(m_hr, pErrorInfo)` unless `SUCCEEDED(m_hr)`. -/
def check (E : Extern σ) (self : CheckedHRESULT) : Prog σ Unit :=
  if !SUCCEEDED self.m_hr then do
    let pErrorInfo ← GetErrorInfo E
    Prog.throw (._com_error self.m_hr pErrorInfo)
  else
    return ()

/-- `CheckedHRESULT(HRESULT hr) : m_hr(hr) { check(); }`. -/
def ctor (E : Extern σ) (hr : HRESULT) : Prog σ CheckedHRESULT := do
  let self : CheckedHRESULT := ⟨hr⟩
  self.check E
  return self

/-- `CheckedHRESULT& operator=(HRESULT hr) { m_hr = hr; check(); return *this; }`. -/
def assign (E : Extern σ) (self : CheckedHRESULT) (hr : HRESULT) : Prog σ CheckedHRESULT := do
  let self : CheckedHRESULT := { self with m_hr := hr }
  self.check E
  return self

/-- `operator HRESULT() const { return m_hr; }`. -/
def toHRESULT (self : CheckedHRESULT) : HRESULT := self.m_hr

end CheckedHRESULT

/-! ## `main` -/

/-- The literal operator `_bstr_t operator "" _bstr(const char* szValue, size_t)`:
the `_bstr_t` holding the text of the literal. -/
def _bstr (szValue : String) : String := szValue

/-- The body of the `try` block of `main`. -/
def tryBlock (E : Extern σ) : Prog σ Int := do
  let created ← CoCreateInstance E .ScriptRunner
  let cpPluginHost := created.2
  let hr ← CheckedHRESULT.ctor E created.1
  let hr ← hr.assign E (← LoadScript E cpPluginHost (_bstr "../Script.cs") (_bstr "RunScript"))
  let created ← CoCreateInstance E .ScriptParams
  let cpScriptParams := created.2
  let hr ← hr.assign E created.1
  let _ ← SetParam E cpScriptParams (_bstr "OutDir") (_bstr "./")
  let _ ← SetParam E cpScriptParams (_bstr "FilterSize") (_bstr "21")
  let imgBird ← CImg.load E "Bird.bmp"
  let image ← CImg.get_shared_channel E imgBird 0
  let hr ← hr.assign E
    (← SetImage E cpScriptParams (_bstr "WorkImage") image.width image.height image.width
      image.data)
  let hr ← hr.assign E (← Execute E cpPluginHost cpScriptParams)
  let got ← GetResult E cpScriptParams (_bstr "Elapsed")
  let bstrElapsed := got.2
  let _ ← hr.assign E got.1
  cout ("Raw script execution took " ++ bstrElapsed ++ " seconds." ++ "\n")
  CImg.save_bmp E image "Processed.bmp"
  return 0

/-- The handler `catch (_com_error& exc)`: prints one line and yields `exc.Error()`. -/
def catchBlock (E : Extern σ) (hr : HRESULT) (description : String) : Prog σ Int := do
  cout (E.ErrorMessage hr ++ " (" ++ description ++ ")" ++ "\n")
  return hr

/-- How a run of `main` ends.  `ret = none` stands for a run that does not
return from `main`: a `CImgException` has no handler, so the run ends in
`std::terminate`; whether the stack is unwound then is implementation
defined and the model records no further call. -/
structure Run (σ : Type) where
  ret : Option Int
  trace : List Event
  out : String
  world : σ

/-- Finish a run: leave the scope of `COMInit com` and return `v`. -/
def leave (E : Extern σ) (v : Int) (s : St σ) : Run σ :=
  let s' := (COMInit.dtor E s).2
  ⟨some v, s'.trace, s'.out, s'.world⟩

/-- `int main(int argc, char** argv)`, started in world `w`; the arguments are
not used. -/
def main (E : Extern σ) (w : σ) : Run σ :=
  let s0 := (COMInit.ctor E ⟨w, [], ""⟩).2
  match tryBlock E s0 with
  | (.ok v, s) => leave E v s
  | (.error (._com_error hr description), s) =>
    match catchBlock E hr description s with
    | (.ok v, s') => leave E v s'
    | (.error _, s') => ⟨none, s'.trace, s'.out, s'.world⟩
  | (.error .CImgException, s) => ⟨none, s.trace, s.out, s.world⟩

/-! ## Sample environments -/

/-- An environment over a call counter in which every call succeeds; the
runner is object 1, the parameters object 2, the script reports `0.25`. -/
def envOK : Extern Nat where
  CoInitialize w := (S_OK, w + 1)
  CoUninitialize w := w + 1
  CoCreateInstance c w := ((S_OK, if c = .ScriptRunner then 1 else 2), w + 1)
  LoadScript _ _ _ w := (S_OK, w + 1)
  SetParam _ _ _ w := (S_OK, w + 1)
  CImg_load _ w := (some ⟨640, 480, 4096, false⟩, w + 1)
  get_shared_channel img _ := some { img with is_shared := true }
  SetImage _ _ _ _ _ _ w := (S_OK, w + 1)
  Execute _ _ w := (S_OK, w + 1)
  GetResult _ _ w := ((S_OK, "0.25"), w + 1)
  save_bmp _ _ w := (true, w + 1)
  GetErrorInfo w := ("no script", w + 1)
  ErrorMessage _ := "Unspecified error"

/-- As `envOK`, but `Processed.bmp` cannot be written. -/
def envSaveThrows : Extern Nat :=
  { envOK with save_bmp := fun _ _ w => (false, w + 1) }

/-- As `envOK`, but `get_shared_channel` throws: the loaded image has no channel 0. -/
def envChannelThrows : Extern Nat :=
  { envOK with get_shared_channel := fun _ _ => none }

/-- As `envOK`, but `LoadScript` fails with `E_FAIL`. -/
def envLoadScriptFails : Extern Nat :=
  { envOK with LoadScript := fun _ _ _ w => (E_FAIL, w + 1) }

/-! ## The run, path by path

`main` is straight-line code with six checks and three places where `CImg`
may throw.  The definitions `ansInit` to `ansSave` name what the environment
hands back along the way, `flat` spells out the resulting run of each of the
ten paths, and `main_eq_flat` shows that this is what `main` computes. -/

section Flat

variable (E : Extern σ) (w : σ)

def ansInit : HRESULT × σ := E.CoInitialize w

def ansRunner : (HRESULT × Ptr) × σ := E.CoCreateInstance .ScriptRunner (ansInit E w).2

def ansLoadScript : HRESULT × σ :=
  E.LoadScript (ansRunner E w).1.2 "../Script.cs" "RunScript" (ansRunner E w).2

def ansParams : (HRESULT × Ptr) × σ := E.CoCreateInstance .ScriptParams (ansLoadScript E w).2

def ansOutDir : HRESULT × σ := E.SetParam (ansParams E w).1.2 "OutDir" "./" (ansParams E w).2

def ansFilterSize : HRESULT × σ :=
  E.SetParam (ansParams E w).1.2 "FilterSize" "21" (ansOutDir E w).2

def ansBird : Option CImg × σ := E.CImg_load "Bird.bmp" (ansFilterSize E w).2

def ansSetImage (image : CImg) : HRESULT × σ :=
  E.SetImage (ansParams E w).1.2 "WorkImage" image.width image.height image.width image.data
    (ansBird E w).2

def ansExecute (image : CImg) : HRESULT × σ :=
  E.Execute (ansRunner E w).1.2 (ansParams E w).1.2 (ansSetImage E w image).2

def ansGetResult (image : CImg) : (HRESULT × String) × σ :=
  E.GetResult (ansParams E w).1.2 "Elapsed" (ansExecute E w image).2

def ansSave (image : CImg) : Bool × σ :=
  E.save_bmp image "Processed.bmp" (ansGetResult E w image).2

/-- The events up to and including the creation of the runner. -/
def trRunner : List Event :=
  [⟨.CoInitialize, .hresult (ansInit E w).1⟩,
   ⟨.CoCreateInstance .ScriptRunner, .created (ansRunner E w).1.1 (ansRunner E w).1.2⟩]

def trLoadScript : List Event :=
  trRunner E w ++
    [⟨.LoadScript (ansRunner E w).1.2 "../Script.cs" "RunScript", .hresult (ansLoadScript E w).1⟩]

def trParams : List Event :=
  trLoadScript E w ++
    [⟨.CoCreateInstance .ScriptParams, .created (ansParams E w).1.1 (ansParams E w).1.2⟩]

def trSetParam : List Event :=
  trParams E w ++
    [⟨.SetParam (ansParams E w).1.2 "OutDir" "./", .hresult (ansOutDir E w).1⟩,
     ⟨.SetParam (ansParams E w).1.2 "FilterSize" "21", .hresult (ansFilterSize E w).1⟩]

def trSetImage (bird image : CImg) : List Event :=
  trSetParam E w ++
    [⟨.CImg_load "Bird.bmp", .image bird⟩,
     ⟨.SetImage (ansParams E w).1.2 "WorkImage" image.width image.height image.width image.data,
      .hresult (ansSetImage E w image).1⟩]

def trExecute (bird image : CImg) : List Event :=
  trSetImage E w bird image ++
    [⟨.Execute (ansRunner E w).1.2 (ansParams E w).1.2, .hresult (ansExecute E w image).1⟩]

def trGetResult (bird image : CImg) : List Event :=
  trExecute E w bird image ++
    [⟨.GetResult (ansParams E w).1.2 "Elapsed",
      .result (ansGetResult E w image).1.1 (ansGetResult E w image).1.2⟩]

/-- The line the success path prints. -/
def elapsedLine (elapsed : String) : String :=
  "Raw script execution took " ++ elapsed ++ " seconds." ++ "\n"

/-- The line the handler prints. -/
def errorLine (hr : HRESULT) (description : String) : String :=
  E.ErrorMessage hr ++ " (" ++ description ++ ")" ++ "\n"

/-- The run that ends in the handler after the events `tr`, the last of which
returned the failure code `hr` and left the world `w'`. -/
def handled (tr : List Event) (hr : HRESULT) (w' : σ) : Run σ :=
  ⟨some hr,
   tr ++ [⟨.GetErrorInfo, .errorInfo (E.GetErrorInfo w').1⟩,
          ⟨.cout (errorLine E hr (E.GetErrorInfo w').1), .void⟩,
          ⟨ Call.CoUninitialize, .void⟩],
   errorLine E hr (E.GetErrorInfo w').1,
   E.CoUninitialize (E.GetErrorInfo w').2⟩

def flat : Run σ :=
  if (ansRunner E w).1.1 < 0 then
    handled E (trRunner E w) (ansRunner E w).1.1 (ansRunner E w).2
  else if (ansLoadScript E w).1 < 0 then
    handled E (trLoadScript E w) (ansLoadScript E w).1 (ansLoadScript E w).2
  else if (ansParams E w).1.1 < 0 then
    handled E (trParams E w) (ansParams E w).1.1 (ansParams E w).2
  else
    match (ansBird E w).1 with
    | none =>
      ⟨none, trSetParam E w ++ [⟨.CImg_load "Bird.bmp", .threw⟩], "", (ansBird E w).2⟩
    | some bird =>
      match E.get_shared_channel bird 0 with
      | none =>
        ⟨none, trSetParam E w ++ [⟨.CImg_load "Bird.bmp", .image bird⟩], "", (ansBird E w).2⟩
      | some image =>
        if (ansSetImage E w image).1 < 0 then
          handled E (trSetImage E w bird image) (ansSetImage E w image).1 (ansSetImage E w image).2
        else if (ansExecute E w image).1 < 0 then
          handled E (trExecute E w bird image) (ansExecute E w image).1 (ansExecute E w image).2
        else if (ansGetResult E w image).1.1 < 0 then
          handled E (trGetResult E w bird image) (ansGetResult E w image).1.1
            (ansGetResult E w image).2
        else if (ansSave E w image).1 then
          ⟨some 0,
           trGetResult E w bird image ++
             [⟨.cout (elapsedLine (ansGetResult E w image).1.2), .void⟩,
              ⟨.save_bmp image "Processed.bmp", .void⟩,
              ⟨ Call.CoUninitialize, .void⟩],
           elapsedLine (ansGetResult E w image).1.2,
           E.CoUninitialize (ansSave E w image).2⟩
        else
          ⟨none,
           trGetResult E w bird image ++
             [⟨.cout (elapsedLine (ansGetResult E w image).1.2), .void⟩,
              ⟨.save_bmp image "Processed.bmp", .threw⟩],
           elapsedLine (ansGetResult E w image).1.2,
           (ansSave E w image).2⟩

end Flat

/-! ## Notions used to state the properties -/

/-- The path of `main` up to the first use of the image: the three checks
before it passed, `Bird.bmp` was read as `bird` and `image` is its shared
channel 0. -/
def Reached (E : Extern σ) (w : σ) (bird image : CImg) : Prop :=
  0 ≤ (ansRunner E w).1.1 ∧ 0 ≤ (ansLoadScript E w).1 ∧ 0 ≤ (ansParams E w).1.1 ∧
  (ansBird E w).1 = some bird ∧ E.get_shared_channel bird 0 = some image

/-- The run `r` was cut short by the failure code `h` of a checked call: that
call is followed by nothing but `GetErrorInfo`, the printing of the error line
and `CoUninitialize`; no check before it failed; nothing was saved; the error
line is all the output; and `main` returns `h`, which is not zero. -/
def CutShortBy (E : Extern σ) (r : Run σ) (h : HRESULT) : Prop :=
  ∃ pre ev d,
    r.trace = pre ++ [ev, ⟨.GetErrorInfo, .errorInfo d⟩,
      ⟨.cout (E.ErrorMessage h ++ " (" ++ d ++ ")" ++ "\n"), .void⟩,
      ⟨ Call.CoUninitialize, .void⟩] ∧
    ev.call.checked = true ∧ ev.ret.hr? = some h ∧
    (∀ h' ∈ checkedResults pre, SUCCEEDED h' = true) ∧
    (∀ img f, Call.save_bmp img f ∉ calls r.trace) ∧
    r.out = E.ErrorMessage h ++ " (" ++ d ++ ")" ++ "\n" ∧
    r.ret = some h ∧ h ≠ 0

/-- The environment `E` with the `HRESULT`s of `SetParam` replaced by those
that `f` chooses; what `SetParam` does to the world is kept. -/
def withSetParamResult (E : Extern σ) (f : Ptr → String → String → σ → HRESULT) : Extern σ :=
  { E with
    SetParam := fun self name value w => (f self name value w, (E.SetParam self name value w).2) }

def Call.isSetParam : Call → Bool
  | .SetParam _ _ _ => true
  | _ => false

/-- What is left of a run when the values returned by `SetParam` are ignored. -/
def Run.modSetParam (r : Run σ) : Option Int × List Call × List Event × String × σ :=
  (r.ret, calls r.trace, r.trace.filter (fun ev => !ev.call.isSetParam), r.out, r.world)

/-! ## Auxiliary lemmas -/

theorem CheckedHRESULT.check_apply (E : Extern σ) (self : CheckedHRESULT) (s : St σ) :
    self.check E s =
      if self.m_hr < 0 then
        (.error (._com_error self.m_hr (E.GetErrorInfo s.world).1),
          { s with world := (E.GetErrorInfo s.world).2,
                   trace := s.trace ++ [⟨.GetErrorInfo, .errorInfo (E.GetErrorInfo s.world).1⟩] })
      else (.ok (), s) := by
  by_cases c : self.m_hr < 0
  · simp [CheckedHRESULT.check, SUCCEEDED, c, GetErrorInfo, Prog.perform, Bind.bind, Prog.bind,
      Prog.throw]
  · simp [CheckedHRESULT.check, SUCCEEDED, c, not_lt.mp c, Pure.pure, Prog.pure]

theorem CheckedHRESULT.ctor_apply (E : Extern σ) (hr : HRESULT) (s : St σ) :
    CheckedHRESULT.ctor E hr s =
      if hr < 0 then
        (.error (._com_error hr (E.GetErrorInfo s.world).1),
          { s with world := (E.GetErrorInfo s.world).2,
                   trace := s.trace ++ [⟨.GetErrorInfo, .errorInfo (E.GetErrorInfo s.world).1⟩] })
      else (.ok ⟨hr⟩, s) := by
  by_cases c : hr < 0 <;>
    simp [CheckedHRESULT.ctor, Bind.bind, Prog.bind, CheckedHRESULT.check_apply, c, Pure.pure,
      Prog.pure]

theorem CheckedHRESULT.assign_apply (E : Extern σ) (self : CheckedHRESULT) (hr : HRESULT)
    (s : St σ) :
    self.assign E hr s =
      if hr < 0 then
        (.error (._com_error hr (E.GetErrorInfo s.world).1),
          { s with world := (E.GetErrorInfo s.world).2,
                   trace := s.trace ++ [⟨.GetErrorInfo, .errorInfo (E.GetErrorInfo s.world).1⟩] })
      else (.ok ⟨hr⟩, s) := by
  by_cases c : hr < 0 <;>
    simp [CheckedHRESULT.assign, Bind.bind, Prog.bind, CheckedHRESULT.check_apply, c, Pure.pure,
      Prog.pure]

theorem main_eq_flat (E : Extern σ) (w : σ) : main E w = flat E w := by
  simp only [flat, handled, errorLine, elapsedLine, trGetResult, trExecute, trSetImage,
    trSetParam, trParams, trLoadScript, trRunner, ansSave, ansGetResult, ansExecute, ansSetImage,
    ansBird, ansFilterSize, ansOutDir, ansParams, ansLoadScript, ansRunner, ansInit,
    main, tryBlock, _bstr, catchBlock, leave, COMInit.ctor, COMInit.dtor,
    CheckedHRESULT.ctor_apply,
    CheckedHRESULT.assign_apply, CoInitialize, CoUninitialize, CoCreateInstance,
    LoadScript, SetParam, SetImage, Execute, GetResult, cout, CImg.load,
    CImg.get_shared_channel, CImg.save_bmp, Prog.perform, Bind.bind, Pure.pure, Prog.bind,
    Prog.pure, Prog.throw]
  generalize E.CoInitialize w = a0
  obtain ⟨hr0, w0⟩ := a0
  dsimp only
  generalize E.CoCreateInstance .ScriptRunner w0 = a1
  obtain ⟨⟨hr1, p1⟩, w1⟩ := a1
  dsimp only
  by_cases c1 : hr1 < 0
  · simp [c1]
  simp only [c1, if_false]
  generalize E.LoadScript p1 "../Script.cs" "RunScript" w1 = a2
  obtain ⟨hr2, w2⟩ := a2
  dsimp only
  by_cases c2 : hr2 < 0
  · simp [c2]
  simp only [c2, if_false]
  generalize E.CoCreateInstance .ScriptParams w2 = a3
  obtain ⟨⟨hr3, p3⟩, w3⟩ := a3
  dsimp only
  by_cases c3 : hr3 < 0
  · simp [c3]
  simp only [c3, if_false]
  generalize E.SetParam p3 "OutDir" "./" w3 = a4
  obtain ⟨hr4, w4⟩ := a4
  dsimp only
  generalize E.SetParam p3 "FilterSize" "21" w4 = a5
  obtain ⟨hr5, w5⟩ := a5
  dsimp only
  generalize E.CImg_load "Bird.bmp" w5 = a6
  obtain ⟨_ | bird, w6⟩ := a6
  · simp
  dsimp only
  generalize E.get_shared_channel bird 0 = a7
  obtain _ | image := a7
  · simp [Prog.throw]
  dsimp only [Prog.pure]
  generalize E.SetImage p3 "WorkImage" image.width image.height image.width image.data w6 = a8
  obtain ⟨hr8, w8⟩ := a8
  dsimp only
  by_cases c8 : hr8 < 0
  · simp [c8]
  simp only [c8, if_false]
  generalize E.Execute p1 p3 w8 = a9
  obtain ⟨hr9, w9⟩ := a9
  dsimp only
  by_cases c9 : hr9 < 0
  · simp [c9]
  simp only [c9, if_false]
  generalize E.GetResult p3 "Elapsed" w9 = a10
  obtain ⟨⟨hr10, elapsed⟩, w10⟩ := a10
  dsimp only
  by_cases c10 : hr10 < 0
  · simp [c10]
  simp only [c10, if_false]
  generalize E.save_bmp image "Processed.bmp" w10 = a11
  obtain ⟨ok, w11⟩ := a11
  dsimp only
  cases ok <;> simp

/-- The ten paths through `main`. -/
theorem main_paths (E : Extern σ) (w : σ) :
    ((ansRunner E w).1.1 < 0 ∧
      main E w = handled E (trRunner E w) (ansRunner E w).1.1 (ansRunner E w).2) ∨
    (0 ≤ (ansRunner E w).1.1 ∧ (ansLoadScript E w).1 < 0 ∧
      main E w = handled E (trLoadScript E w) (ansLoadScript E w).1 (ansLoadScript E w).2) ∨
    (0 ≤ (ansRunner E w).1.1 ∧ 0 ≤ (ansLoadScript E w).1 ∧ (ansParams E w).1.1 < 0 ∧
      main E w = handled E (trParams E w) (ansParams E w).1.1 (ansParams E w).2) ∨
    (0 ≤ (ansRunner E w).1.1 ∧ 0 ≤ (ansLoadScript E w).1 ∧ 0 ≤ (ansParams E w).1.1 ∧
      (ansBird E w).1 = none ∧
      main E w =
        ⟨none, trSetParam E w ++ [⟨.CImg_load "Bird.bmp", .threw⟩], "", (ansBird E w).2⟩) ∨
    (∃ bird, 0 ≤ (ansRunner E w).1.1 ∧ 0 ≤ (ansLoadScript E w).1 ∧ 0 ≤ (ansParams E w).1.1 ∧
      (ansBird E w).1 = some bird ∧ E.get_shared_channel bird 0 = none ∧
      main E w =
        ⟨none, trSetParam E w ++ [⟨.CImg_load "Bird.bmp", .image bird⟩], "", (ansBird E w).2⟩) ∨
    (∃ bird image, Reached E w bird image ∧ (ansSetImage E w image).1 < 0 ∧
      main E w = handled E (trSetImage E w bird image) (ansSetImage E w image).1
        (ansSetImage E w image).2) ∨
    (∃ bird image, Reached E w bird image ∧ 0 ≤ (ansSetImage E w image).1 ∧
      (ansExecute E w image).1 < 0 ∧
      main E w = handled E (trExecute E w bird image) (ansExecute E w image).1
        (ansExecute E w image).2) ∨
    (∃ bird image, Reached E w bird image ∧ 0 ≤ (ansSetImage E w image).1 ∧
      0 ≤ (ansExecute E w image).1 ∧ (ansGetResult E w image).1.1 < 0 ∧
      main E w = handled E (trGetResult E w bird image) (ansGetResult E w image).1.1
        (ansGetResult E w image).2) ∨
    (∃ bird image, Reached E w bird image ∧ 0 ≤ (ansSetImage E w image).1 ∧
      0 ≤ (ansExecute E w image).1 ∧ 0 ≤ (ansGetResult E w image).1.1 ∧
      (ansSave E w image).1 = true ∧
      main E w =
        ⟨some 0,
         trGetResult E w bird image ++
           [⟨.cout (elapsedLine (ansGetResult E w image).1.2), .void⟩,
            ⟨.save_bmp image "Processed.bmp", .void⟩,
            ⟨ Call.CoUninitialize, .void⟩],
         elapsedLine (ansGetResult E w image).1.2,
         E.CoUninitialize (ansSave E w image).2⟩) ∨
    (∃ bird image, Reached E w bird image ∧ 0 ≤ (ansSetImage E w image).1 ∧
      0 ≤ (ansExecute E w image).1 ∧ 0 ≤ (ansGetResult E w image).1.1 ∧
      (ansSave E w image).1 = false ∧
      main E w =
        ⟨none,
         trGetResult E w bird image ++
           [⟨.cout (elapsedLine (ansGetResult E w image).1.2), .void⟩,
            ⟨.save_bmp image "Processed.bmp", .threw⟩],
         elapsedLine (ansGetResult E w image).1.2,
         (ansSave E w image).2⟩) := by
  generalize hm : main E w = r
  rw [main_eq_flat] at hm
  unfold flat at hm
  split_ifs at hm with c1 c2 c3
  · exact Or.inl ⟨c1, hm.symm⟩
  · exact Or.inr (Or.inl ⟨not_lt.mp c1, c2, hm.symm⟩)
  · exact Or.inr (Or.inr (Or.inl ⟨not_lt.mp c1, not_lt.mp c2, c3, hm.symm⟩))
  · have h1 := not_lt.mp c1
    have h2 := not_lt.mp c2
    have h3 := not_lt.mp c3
    split at hm
    · rename_i hb
      exact Or.inr (Or.inr (Or.inr (Or.inl ⟨h1, h2, h3, hb, hm.symm⟩)))
    · rename_i bird hb
      split at hm
      · rename_i hc
        exact Or.inr (Or.inr (Or.inr (Or.inr (Or.inl ⟨bird, h1, h2, h3, hb, hc, hm.symm⟩))))
      · rename_i image hc
        have hr : Reached E w bird image := ⟨h1, h2, h3, hb, hc⟩
        split_ifs at hm with c8 c9 c10 c11
        · exact Or.inr (Or.inr (Or.inr (Or.inr (Or.inr (Or.inl ⟨bird, image, hr, c8, hm.symm⟩)))))
        · exact Or.inr (Or.inr (Or.inr (Or.inr (Or.inr (Or.inr (Or.inl
            ⟨bird, image, hr, not_lt.mp c8, c9, hm.symm⟩))))))
        · exact Or.inr (Or.inr (Or.inr (Or.inr (Or.inr (Or.inr (Or.inr (Or.inl
            ⟨bird, image, hr, not_lt.mp c8, not_lt.mp c9, c10, hm.symm⟩)))))))
        · exact Or.inr (Or.inr (Or.inr (Or.inr (Or.inr (Or.inr (Or.inr (Or.inr (Or.inl
            ⟨bird, image, hr, not_lt.mp c8, not_lt.mp c9, not_lt.mp c10, c11, hm.symm⟩))))))))
        · exact Or.inr (Or.inr (Or.inr (Or.inr (Or.inr (Or.inr (Or.inr (Or.inr (Or.inr
            ⟨bird, image, hr, not_lt.mp c8, not_lt.mp c9, not_lt.mp c10,
              Bool.eq_false_iff.mpr c11, hm.symm⟩))))))))

theorem handled_cutShort (E : Extern σ) (pre : List Event) (ev : Event) (hr : HRESULT) (w' : σ)
    (hchk : ev.call.checked = true) (hhr : ev.ret.hr? = some hr) (hneg : hr < 0)
    (hpre : ∀ h' ∈ checkedResults pre, SUCCEEDED h' = true)
    (hsave : ∀ img f, Call.save_bmp img f ∉ calls (pre ++ [ev])) :
    CutShortBy E (handled E (pre ++ [ev]) hr w') hr := by
  refine ⟨pre, ev, (E.GetErrorInfo w').1, by simp [handled, errorLine], hchk, hhr, hpre, ?_,
    by simp [handled, errorLine], rfl, ne_of_lt hneg⟩
  intro img f hmem
  apply hsave img f
  simpa [handled, calls] using hmem

theorem cutShort_of_failure (E : Extern σ) (w : σ) (h : HRESULT)
    (hmem : h ∈ checkedResults (main E w).trace) (hneg : h < 0) :
    CutShortBy E (main E w) h := by
  rcases main_paths E w with ⟨c1, hm⟩ | ⟨c1, c2, hm⟩ | ⟨c1, c2, c3, hm⟩ | ⟨c1, c2, c3, hb, hm⟩ |
    ⟨bird, c1, c2, c3, hb, hc, hm⟩ | ⟨bird, image, ⟨c1, c2, c3, hb, hc⟩, c8, hm⟩ |
    ⟨bird, image, ⟨c1, c2, c3, hb, hc⟩, c8, c9, hm⟩ |
    ⟨bird, image, ⟨c1, c2, c3, hb, hc⟩, c8, c9, c10, hm⟩ |
    ⟨bird, image, ⟨c1, c2, c3, hb, hc⟩, c8, c9, c10, c11, hm⟩ |
    ⟨bird, image, ⟨c1, c2, c3, hb, hc⟩, c8, c9, c10, c11, hm⟩
  all_goals rw [hm] at hmem ⊢
  · simp [handled, trGetResult, trExecute, trSetImage, trSetParam, trParams, trLoadScript, trRunner,
      checkedResults, Call.checked, Ret.hr?] at hmem
    subst hmem
    exact handled_cutShort E [_] ⟨_, _⟩ _ _ rfl rfl hneg (by simp [checkedResults, Call.checked,
        Ret.hr?]) (by simp [calls])
  · simp [handled, trGetResult, trExecute, trSetImage, trSetParam, trParams, trLoadScript, trRunner,
      checkedResults, Call.checked, Ret.hr?] at hmem
    have hh : h = (ansLoadScript E w).1 := by
      rcases hmem with rfl | rfl <;> first | rfl | linarith
    subst hh
    exact handled_cutShort E (trRunner E w) ⟨_, _⟩ _ _ rfl rfl hneg
      (by simp [trGetResult, trExecute, trSetImage, trSetParam, trParams, trLoadScript, trRunner,
          checkedResults, Call.checked, Ret.hr?, SUCCEEDED, c1]) (by simp [calls, trGetResult,
          trExecute, trSetImage, trSetParam, trParams, trLoadScript, trRunner])
  · simp [handled, trGetResult, trExecute, trSetImage, trSetParam, trParams, trLoadScript, trRunner,
      checkedResults, Call.checked, Ret.hr?] at hmem
    have hh : h = (ansParams E w).1.1 := by
      rcases hmem with rfl | rfl | rfl <;> first | rfl | linarith
    subst hh
    exact handled_cutShort E (trLoadScript E w) ⟨_, _⟩ _ _ rfl rfl hneg
      (by simp [trGetResult, trExecute, trSetImage, trSetParam, trParams, trLoadScript, trRunner,
          checkedResults, Call.checked, Ret.hr?, SUCCEEDED, c1, c2]) (by simp [calls, trGetResult,
          trExecute, trSetImage, trSetParam, trParams, trLoadScript, trRunner])
  · simp [trGetResult, trExecute, trSetImage, trSetParam, trParams, trLoadScript, trRunner,
      checkedResults, Call.checked, Ret.hr?] at hmem
    rcases hmem with rfl | rfl | rfl <;> linarith
  · simp [trGetResult, trExecute, trSetImage, trSetParam, trParams, trLoadScript, trRunner,
      checkedResults, Call.checked, Ret.hr?] at hmem
    rcases hmem with rfl | rfl | rfl <;> linarith
  · simp [handled, trGetResult, trExecute, trSetImage, trSetParam, trParams, trLoadScript, trRunner,
      checkedResults, Call.checked, Ret.hr?] at hmem
    have hh : h = (ansSetImage E w image).1 := by
      rcases hmem with rfl | rfl | rfl | rfl <;> first | rfl | linarith
    subst hh
    exact handled_cutShort E (trSetParam E w ++ [⟨.CImg_load "Bird.bmp", .image bird⟩])
      ⟨.SetImage (ansParams E w).1.2 "WorkImage" image.width image.height image.width
        image.data, .hresult (ansSetImage E w image).1⟩ _ _ rfl rfl hneg
      (by simp [trGetResult, trExecute, trSetImage, trSetParam, trParams, trLoadScript, trRunner,
          checkedResults, Call.checked, Ret.hr?, SUCCEEDED, c1, c2, c3]) (by simp [calls,
          trGetResult, trExecute, trSetImage, trSetParam, trParams, trLoadScript, trRunner])
  · simp [handled, trGetResult, trExecute, trSetImage, trSetParam, trParams, trLoadScript, trRunner,
      checkedResults, Call.checked, Ret.hr?] at hmem
    have hh : h = (ansExecute E w image).1 := by
      rcases hmem with rfl | rfl | rfl | rfl | rfl <;> first | rfl | linarith
    subst hh
    exact handled_cutShort E (trSetImage E w bird image) ⟨_, _⟩ _ _ rfl rfl hneg
      (by simp [trGetResult, trExecute, trSetImage, trSetParam, trParams, trLoadScript, trRunner,
          checkedResults, Call.checked, Ret.hr?, SUCCEEDED, c1, c2, c3, c8]) (by simp [calls,
          trGetResult, trExecute, trSetImage, trSetParam, trParams, trLoadScript, trRunner])
  · simp [handled, trGetResult, trExecute, trSetImage, trSetParam, trParams, trLoadScript, trRunner,
      checkedResults, Call.checked, Ret.hr?] at hmem
    have hh : h = (ansGetResult E w image).1.1 := by
      rcases hmem with rfl | rfl | rfl | rfl | rfl | rfl <;> first | rfl | linarith
    subst hh
    exact handled_cutShort E (trExecute E w bird image) ⟨_, _⟩ _ _ rfl rfl hneg
      (by simp [trGetResult, trExecute, trSetImage, trSetParam, trParams, trLoadScript, trRunner,
          checkedResults, Call.checked, Ret.hr?, SUCCEEDED, c1, c2, c3, c8, c9]) (by simp [calls,
          trGetResult, trExecute, trSetImage, trSetParam, trParams, trLoadScript, trRunner])
  · simp [trGetResult, trExecute, trSetImage, trSetParam, trParams, trLoadScript, trRunner,
      checkedResults, Call.checked, Ret.hr?] at hmem
    rcases hmem with rfl | rfl | rfl | rfl | rfl | rfl <;> linarith
  · simp [trGetResult, trExecute, trSetImage, trSetParam, trParams, trLoadScript, trRunner,
      checkedResults, Call.checked, Ret.hr?] at hmem
    rcases hmem with rfl | rfl | rfl | rfl | rfl | rfl <;> linarith

theorem returns_of_checks_passed (E : Extern σ) (w : σ)
    (hok : ∀ h ∈ checkedResults (main E w).trace, SUCCEEDED h = true)
    (hret : (main E w).ret ≠ none) :
    ∃ bird image, Reached E w bird image ∧
      main E w =
        ⟨some 0,
         trGetResult E w bird image ++
           [⟨.cout (elapsedLine (ansGetResult E w image).1.2), .void⟩,
            ⟨.save_bmp image "Processed.bmp", .void⟩,
            ⟨ Call.CoUninitialize, .void⟩],
         elapsedLine (ansGetResult E w image).1.2,
         E.CoUninitialize (ansSave E w image).2⟩ := by
  have hnofail : ∀ h, h ∈ checkedResults (main E w).trace → ¬ h < 0 := by
    intro h hmem hneg
    have := hok h hmem
    simp [SUCCEEDED] at this
    linarith
  rcases main_paths E w with ⟨c1, hm⟩ | ⟨c1, c2, hm⟩ | ⟨c1, c2, c3, hm⟩ | ⟨c1, c2, c3, hb, hm⟩ |
    ⟨bird, c1, c2, c3, hb, hc, hm⟩ | ⟨bird, image, ⟨c1, c2, c3, hb, hc⟩, c8, hm⟩ |
    ⟨bird, image, ⟨c1, c2, c3, hb, hc⟩, c8, c9, hm⟩ |
    ⟨bird, image, ⟨c1, c2, c3, hb, hc⟩, c8, c9, c10, hm⟩ |
    ⟨bird, image, ⟨c1, c2, c3, hb, hc⟩, c8, c9, c10, c11, hm⟩ |
    ⟨bird, image, ⟨c1, c2, c3, hb, hc⟩, c8, c9, c10, c11, hm⟩
  · exact absurd c1 (hnofail _ (by rw [hm]; simp [handled, trGetResult, trExecute, trSetImage,
      trSetParam, trParams, trLoadScript, trRunner, checkedResults, Call.checked, Ret.hr?]))
  · exact absurd c2 (hnofail _ (by rw [hm]; simp [handled, trGetResult, trExecute, trSetImage,
      trSetParam, trParams, trLoadScript, trRunner, checkedResults, Call.checked, Ret.hr?]))
  · exact absurd c3 (hnofail _ (by rw [hm]; simp [handled, trGetResult, trExecute, trSetImage,
      trSetParam, trParams, trLoadScript, trRunner, checkedResults, Call.checked, Ret.hr?]))
  · rw [hm] at hret; exact absurd rfl hret
  · rw [hm] at hret; exact absurd rfl hret
  · exact absurd c8 (hnofail _ (by rw [hm]; simp [handled, trGetResult, trExecute, trSetImage,
      trSetParam, trParams, trLoadScript, trRunner, checkedResults, Call.checked, Ret.hr?]))
  · exact absurd c9 (hnofail _ (by rw [hm]; simp [handled, trGetResult, trExecute, trSetImage,
      trSetParam, trParams, trLoadScript, trRunner, checkedResults, Call.checked, Ret.hr?]))
  · exact absurd c10 (hnofail _ (by rw [hm]; simp [handled, trGetResult, trExecute, trSetImage,
      trSetParam, trParams, trLoadScript, trRunner, checkedResults, Call.checked, Ret.hr?]))
  · exact ⟨bird, image, ⟨c1, c2, c3, hb, hc⟩, hm⟩
  · rw [hm] at hret; exact absurd rfl hret

section With

variable (E : Extern σ) (f : Ptr → String → String → σ → HRESULT) (w : σ)

theorem ansInit_with : ansInit (withSetParamResult E f) w = ansInit E w := rfl

theorem ansRunner_with : ansRunner (withSetParamResult E f) w = ansRunner E w := rfl

theorem ansLoadScript_with : ansLoadScript (withSetParamResult E f) w = ansLoadScript E w := rfl

theorem ansParams_with : ansParams (withSetParamResult E f) w = ansParams E w := rfl

theorem ansOutDir_with : ansOutDir (withSetParamResult E f) w =
    (f (ansParams E w).1.2 "OutDir" "./" (ansParams E w).2, (ansOutDir E w).2) := rfl

theorem ansFilterSize_with : ansFilterSize (withSetParamResult E f) w =
    (f (ansParams E w).1.2 "FilterSize" "21" (ansOutDir E w).2, (ansFilterSize E w).2) := rfl

theorem ansBird_with : ansBird (withSetParamResult E f) w = ansBird E w := rfl

theorem ansSetImage_with (image : CImg) :
    ansSetImage (withSetParamResult E f) w image = ansSetImage E w image := rfl

theorem ansExecute_with (image : CImg) :
    ansExecute (withSetParamResult E f) w image = ansExecute E w image := rfl

theorem ansGetResult_with (image : CImg) :
    ansGetResult (withSetParamResult E f) w image = ansGetResult E w image := rfl

theorem ansSave_with (image : CImg) :
    ansSave (withSetParamResult E f) w image = ansSave E w image := rfl

theorem get_shared_channel_with :
    (withSetParamResult E f).get_shared_channel = E.get_shared_channel := rfl

theorem GetErrorInfo_with : (withSetParamResult E f).GetErrorInfo = E.GetErrorInfo := rfl

theorem ErrorMessage_with : (withSetParamResult E f).ErrorMessage = E.ErrorMessage := rfl

theorem CoUninitialize_with : Extern.CoUninitialize (withSetParamResult E f) = E.CoUninitialize := rfl

end With

theorem flat_modSetParam (E : Extern σ) (f g : Ptr → String → String → σ → HRESULT) (w : σ) :
    (flat (withSetParamResult E f) w).modSetParam =
      (flat (withSetParamResult E g) w).modSetParam := by
  simp only [flat, handled, errorLine, trGetResult, trExecute, trSetImage,
    trSetParam, trParams, trLoadScript, trRunner]
  simp only [ansInit_with, ansRunner_with, ansLoadScript_with, ansParams_with, ansOutDir_with,
    ansFilterSize_with, ansBird_with, ansSetImage_with, ansExecute_with, ansGetResult_with,
    ansSave_with, get_shared_channel_with, GetErrorInfo_with, ErrorMessage_with,
    CoUninitialize_with]
  by_cases c1 : (ansRunner E w).1.1 < 0
  · simp only [c1, if_true]
  simp only [c1, if_false]
  by_cases c2 : (ansLoadScript E w).1 < 0
  · simp only [c2, if_true]
  simp only [c2, if_false]
  by_cases c3 : (ansParams E w).1.1 < 0
  · simp only [c3, if_true]
  simp only [c3, if_false]
  cases (ansBird E w).1 with
  | none => simp [Run.modSetParam, calls, Call.isSetParam]
  | some bird =>
    simp only []
    cases E.get_shared_channel bird 0 with
    | none => simp [Run.modSetParam, calls, Call.isSetParam]
    | some image =>
      simp only []
      by_cases c8 : (ansSetImage E w image).1 < 0
      · simp [c8, Run.modSetParam, calls, Call.isSetParam]
      simp only [c8, if_false]
      by_cases c9 : (ansExecute E w image).1 < 0
      · simp [c9, Run.modSetParam, calls, Call.isSetParam]
      simp only [c9, if_false]
      by_cases c10 : (ansGetResult E w image).1.1 < 0
      · simp [c10, Run.modSetParam, calls, Call.isSetParam]
      simp only [c10, if_false]
      cases (ansSave E w image).1 <;> simp [Run.modSetParam, calls, Call.isSetParam]

/-- After a `SetImage` that returned success, `Execute` is called with the
object that received the `SetImage`. -/
theorem execute_follows_setImage (E : Extern σ) (w : σ) (self : Ptr) (name : String)
    (wd ht st d : Int) (hrS : HRESULT)
    (h : ⟨Call.SetImage self name wd ht st d, Ret.hresult hrS⟩ ∈ (main E w).trace)
    (hs : SUCCEEDED hrS = true) :
    ∃ runner hrE, ⟨Call.Execute runner self, Ret.hresult hrE⟩ ∈ (main E w).trace := by
  have hs' : 0 ≤ hrS := by simpa [SUCCEEDED] using hs
  rcases main_paths E w with ⟨c1, hm⟩ | ⟨c1, c2, hm⟩ | ⟨c1, c2, c3, hm⟩ | ⟨c1, c2, c3, hb, hm⟩ |
    ⟨bird', c1, c2, c3, hb, hc, hm⟩ | ⟨bird', image', ⟨c1, c2, c3, hb, hc⟩, c8, hm⟩ |
    ⟨bird', image', ⟨c1, c2, c3, hb, hc⟩, c8, c9, hm⟩ |
    ⟨bird', image', ⟨c1, c2, c3, hb, hc⟩, c8, c9, c10, hm⟩ |
    ⟨bird', image', ⟨c1, c2, c3, hb, hc⟩, c8, c9, c10, c11, hm⟩ |
    ⟨bird', image', ⟨c1, c2, c3, hb, hc⟩, c8, c9, c10, c11, hm⟩
  all_goals rw [hm] at h ⊢
  · simp [handled, trGetResult, trExecute, trSetImage, trSetParam, trParams, trLoadScript,
      trRunner] at h
  · simp [handled, trGetResult, trExecute, trSetImage, trSetParam, trParams, trLoadScript,
      trRunner] at h
  · simp [handled, trGetResult, trExecute, trSetImage, trSetParam, trParams, trLoadScript,
      trRunner] at h
  · simp [handled, trGetResult, trExecute, trSetImage, trSetParam, trParams, trLoadScript,
      trRunner] at h
  · simp [handled, trGetResult, trExecute, trSetImage, trSetParam, trParams, trLoadScript,
      trRunner] at h
  · simp [handled, trGetResult, trExecute, trSetImage, trSetParam, trParams, trLoadScript,
      trRunner] at h
    obtain ⟨_, rfl⟩ := h
    linarith
  · simp [handled, trGetResult, trExecute, trSetImage, trSetParam, trParams, trLoadScript,
      trRunner] at h
    obtain ⟨⟨rfl, _⟩, _⟩ := h
    exact ⟨(ansRunner E w).1.2, (ansExecute E w image').1, by simp [handled, trGetResult, trExecute,
        trSetImage, trSetParam, trParams, trLoadScript, trRunner]⟩
  · simp [handled, trGetResult, trExecute, trSetImage, trSetParam, trParams, trLoadScript,
      trRunner] at h
    obtain ⟨⟨rfl, _⟩, _⟩ := h
    exact ⟨(ansRunner E w).1.2, (ansExecute E w image').1, by simp [handled, trGetResult, trExecute,
        trSetImage, trSetParam, trParams, trLoadScript, trRunner]⟩
  · simp [handled, trGetResult, trExecute, trSetImage, trSetParam, trParams, trLoadScript,
      trRunner] at h
    obtain ⟨⟨rfl, _⟩, _⟩ := h
    exact ⟨(ansRunner E w).1.2, (ansExecute E w image').1, by simp [handled, trGetResult, trExecute,
        trSetImage, trSetParam, trParams, trLoadScript, trRunner]⟩
  · simp [handled, trGetResult, trExecute, trSetImage, trSetParam, trParams, trLoadScript,
      trRunner] at h
    obtain ⟨⟨rfl, _⟩, _⟩ := h
    exact ⟨(ansRunner E w).1.2, (ansExecute E w image').1, by simp [handled, trGetResult, trExecute,
        trSetImage, trSetParam, trParams, trLoadScript, trRunner]⟩

/-- After an `Execute` that returned success, `GetResult("Elapsed")` is called
on the parameters object that was passed to `Execute`. -/
theorem getResult_follows_execute (E : Extern σ) (w : σ) (runner p : Ptr) (hrE : HRESULT)
    (h : ⟨Call.Execute runner p, Ret.hresult hrE⟩ ∈ (main E w).trace)
    (hs : SUCCEEDED hrE = true) :
    ∃ hrG elapsed,
      ⟨Call.GetResult p "Elapsed", Ret.result hrG elapsed⟩ ∈ (main E w).trace := by
  have hs' : 0 ≤ hrE := by simpa [SUCCEEDED] using hs
  rcases main_paths E w with ⟨c1, hm⟩ | ⟨c1, c2, hm⟩ | ⟨c1, c2, c3, hm⟩ | ⟨c1, c2, c3, hb, hm⟩ |
    ⟨bird', c1, c2, c3, hb, hc, hm⟩ | ⟨bird', image', ⟨c1, c2, c3, hb, hc⟩, c8, hm⟩ |
    ⟨bird', image', ⟨c1, c2, c3, hb, hc⟩, c8, c9, hm⟩ |
    ⟨bird', image', ⟨c1, c2, c3, hb, hc⟩, c8, c9, c10, hm⟩ |
    ⟨bird', image', ⟨c1, c2, c3, hb, hc⟩, c8, c9, c10, c11, hm⟩ |
    ⟨bird', image', ⟨c1, c2, c3, hb, hc⟩, c8, c9, c10, c11, hm⟩
  all_goals rw [hm] at h ⊢
  · simp [handled, trGetResult, trExecute, trSetImage, trSetParam, trParams, trLoadScript,
      trRunner] at h
  · simp [handled, trGetResult, trExecute, trSetImage, trSetParam, trParams, trLoadScript,
      trRunner] at h
  · simp [handled, trGetResult, trExecute, trSetImage, trSetParam, trParams, trLoadScript,
      trRunner] at h
  · simp [handled, trGetResult, trExecute, trSetImage, trSetParam, trParams, trLoadScript,
      trRunner] at h
  · simp [handled, trGetResult, trExecute, trSetImage, trSetParam, trParams, trLoadScript,
      trRunner] at h
  · simp [handled, trGetResult, trExecute, trSetImage, trSetParam, trParams, trLoadScript,
      trRunner] at h
  · simp [handled, trGetResult, trExecute, trSetImage, trSetParam, trParams, trLoadScript,
      trRunner] at h
    obtain ⟨_, rfl⟩ := h
    linarith
  · simp [handled, trGetResult, trExecute, trSetImage, trSetParam, trParams, trLoadScript,
      trRunner] at h
    obtain ⟨⟨_, rfl⟩, _⟩ := h
    exact ⟨(ansGetResult E w image').1.1, (ansGetResult E w image').1.2, by simp [handled,
        trGetResult, trExecute, trSetImage, trSetParam, trParams, trLoadScript, trRunner]⟩
  · simp [handled, trGetResult, trExecute, trSetImage, trSetParam, trParams, trLoadScript,
      trRunner] at h
    obtain ⟨⟨_, rfl⟩, _⟩ := h
    exact ⟨(ansGetResult E w image').1.1, (ansGetResult E w image').1.2, by simp [handled,
        trGetResult, trExecute, trSetImage, trSetParam, trParams, trLoadScript, trRunner]⟩
  · simp [handled, trGetResult, trExecute, trSetImage, trSetParam, trParams, trLoadScript,
      trRunner] at h
    obtain ⟨⟨_, rfl⟩, _⟩ := h
    exact ⟨(ansGetResult E w image').1.1, (ansGetResult E w image').1.2, by simp [handled,
        trGetResult, trExecute, trSetImage, trSetParam, trParams, trLoadScript, trRunner]⟩

/-- After a `GetResult` that returned success, the timing line is printed and
`save_bmp("Processed.bmp")` is called. -/
theorem save_follows_getResult (E : Extern σ) (w : σ) (p : Ptr) (name : String)
    (hrG : HRESULT) (elapsed : String)
    (h : ⟨Call.GetResult p name, Ret.result hrG elapsed⟩ ∈ (main E w).trace)
    (hs : SUCCEEDED hrG = true) :
    ∃ img rs, ⟨Call.save_bmp img "Processed.bmp", rs⟩ ∈ (main E w).trace := by
  have hs' : 0 ≤ hrG := by simpa [SUCCEEDED] using hs
  rcases main_paths E w with ⟨c1, hm⟩ | ⟨c1, c2, hm⟩ | ⟨c1, c2, c3, hm⟩ | ⟨c1, c2, c3, hb, hm⟩ |
    ⟨bird', c1, c2, c3, hb, hc, hm⟩ | ⟨bird', image', ⟨c1, c2, c3, hb, hc⟩, c8, hm⟩ |
    ⟨bird', image', ⟨c1, c2, c3, hb, hc⟩, c8, c9, hm⟩ |
    ⟨bird', image', ⟨c1, c2, c3, hb, hc⟩, c8, c9, c10, hm⟩ |
    ⟨bird', image', ⟨c1, c2, c3, hb, hc⟩, c8, c9, c10, c11, hm⟩ |
    ⟨bird', image', ⟨c1, c2, c3, hb, hc⟩, c8, c9, c10, c11, hm⟩
  all_goals rw [hm] at h ⊢
  · simp [handled, trGetResult, trExecute, trSetImage, trSetParam, trParams, trLoadScript,
      trRunner] at h
  · simp [handled, trGetResult, trExecute, trSetImage, trSetParam, trParams, trLoadScript,
      trRunner] at h
  · simp [handled, trGetResult, trExecute, trSetImage, trSetParam, trParams, trLoadScript,
      trRunner] at h
  · simp [handled, trGetResult, trExecute, trSetImage, trSetParam, trParams, trLoadScript,
      trRunner] at h
  · simp [handled, trGetResult, trExecute, trSetImage, trSetParam, trParams, trLoadScript,
      trRunner] at h
  · simp [handled, trGetResult, trExecute, trSetImage, trSetParam, trParams, trLoadScript,
      trRunner] at h
  · simp [handled, trGetResult, trExecute, trSetImage, trSetParam, trParams, trLoadScript,
      trRunner] at h
  · simp [handled, trGetResult, trExecute, trSetImage, trSetParam, trParams, trLoadScript,
      trRunner] at h
    obtain ⟨_, rfl, _⟩ := h
    linarith
  · exact ⟨image', Ret.void, by simp [trGetResult, trExecute, trSetImage, trSetParam, trParams,
      trLoadScript, trRunner]⟩
  · exact ⟨image', Ret.threw, by simp [trGetResult, trExecute, trSetImage, trSetParam, trParams,
      trLoadScript, trRunner]⟩

/-- Once the parameters object has been created, both `SetParam` calls are
made and, whatever they return, the next call is the loading of `Bird.bmp`;
if the image and its shared channel are obtained, `SetImage` follows on the
same object, and `Execute` with that object follows a successful `SetImage`. -/
theorem load_follows_params (E : Extern σ) (w : σ) (hr : HRESULT) (p : Ptr)
    (h : ⟨Call.CoCreateInstance .ScriptParams, Ret.created hr p⟩ ∈ (main E w).trace)
    (hs : SUCCEEDED hr = true) :
    ∃ w1 w2 res pre post,
      (main E w).trace =
        pre ++ ⟨Call.SetParam p "OutDir" "./", Ret.hresult (E.SetParam p "OutDir" "./" w1).1⟩ ::
          ⟨Call.SetParam p "FilterSize" "21",
            Ret.hresult (E.SetParam p "FilterSize" "21" w2).1⟩ ::
          ⟨Call.CImg_load "Bird.bmp", res⟩ :: post ∧
      ∀ bird image, res = Ret.image bird → E.get_shared_channel bird 0 = some image →
        ∃ hrS,
          ⟨Call.SetImage p "WorkImage" image.width image.height image.width image.data,
            Ret.hresult hrS⟩ ∈ post ∧
          (SUCCEEDED hrS = true →
            ∃ runner hrE, ⟨Call.Execute runner p, Ret.hresult hrE⟩ ∈ post) := by
  have hs' : 0 ≤ hr := by simpa [SUCCEEDED] using hs
  rcases main_paths E w with ⟨c1, hm⟩ | ⟨c1, c2, hm⟩ | ⟨c1, c2, c3, hm⟩ | ⟨c1, c2, c3, hb, hm⟩ |
    ⟨bird', c1, c2, c3, hb, hc, hm⟩ | ⟨bird', image', ⟨c1, c2, c3, hb, hc⟩, c8, hm⟩ |
    ⟨bird', image', ⟨c1, c2, c3, hb, hc⟩, c8, c9, hm⟩ |
    ⟨bird', image', ⟨c1, c2, c3, hb, hc⟩, c8, c9, c10, hm⟩ |
    ⟨bird', image', ⟨c1, c2, c3, hb, hc⟩, c8, c9, c10, c11, hm⟩ |
    ⟨bird', image', ⟨c1, c2, c3, hb, hc⟩, c8, c9, c10, c11, hm⟩
  all_goals rw [hm] at h ⊢
  · simp [handled, trGetResult, trExecute, trSetImage, trSetParam, trParams, trLoadScript,
      trRunner] at h
  · simp [handled, trGetResult, trExecute, trSetImage, trSetParam, trParams, trLoadScript,
      trRunner] at h
  · simp [handled, trGetResult, trExecute, trSetImage, trSetParam, trParams, trLoadScript,
      trRunner] at h
    obtain ⟨rfl, rfl⟩ := h
    linarith
  · simp [handled, trGetResult, trExecute, trSetImage, trSetParam, trParams, trLoadScript,
      trRunner] at h
    obtain ⟨rfl, rfl⟩ := h
    refine ⟨(ansParams E w).2, (ansOutDir E w).2, Ret.threw, trParams E w, [],
      by simp [trGetResult, trExecute, trSetImage, trSetParam, trParams, trLoadScript, trRunner,
          ansOutDir, ansFilterSize], ?_⟩
    intro bird image hres
    simp at hres
  · simp [handled, trGetResult, trExecute, trSetImage, trSetParam, trParams, trLoadScript,
      trRunner] at h
    obtain ⟨rfl, rfl⟩ := h
    refine ⟨(ansParams E w).2, (ansOutDir E w).2, Ret.image bird', trParams E w, [],
      by simp [trGetResult, trExecute, trSetImage, trSetParam, trParams, trLoadScript, trRunner,
          ansOutDir, ansFilterSize], ?_⟩
    intro bird image hres hch
    have hbi : bird' = bird := by simpa using hres
    subst hbi
    rw [hc] at hch
    exact absurd hch (by simp)
  · simp [handled, trGetResult, trExecute, trSetImage, trSetParam, trParams, trLoadScript,
      trRunner] at h
    obtain ⟨rfl, rfl⟩ := h
    refine ⟨(ansParams E w).2, (ansOutDir E w).2, Ret.image bird', trParams E w,
      [⟨Call.SetImage (ansParams E w).1.2 "WorkImage" image'.width image'.height image'.width
          image'.data, Ret.hresult (ansSetImage E w image').1⟩,
        ⟨Call.GetErrorInfo, Ret.errorInfo (E.GetErrorInfo (ansSetImage E w image').2).1⟩,
        ⟨Call.cout (errorLine E (ansSetImage E w image').1 (E.GetErrorInfo (ansSetImage E w image').2).1),
            Ret.void⟩,
        ⟨ Call.CoUninitialize, Ret.void⟩], by simp [handled, trGetResult, trExecute, trSetImage,
            trSetParam, trParams, trLoadScript, trRunner, ansOutDir, ansFilterSize, errorLine], ?_⟩
    · intro bird image hres hch
      have hbi : bird' = bird := by simpa using hres
      subst hbi
      have hii : image' = image := Option.some.inj (hc.symm.trans hch)
      subst hii
      refine ⟨(ansSetImage E w image').1, by simp, ?_⟩
      intro hs2
      have : 0 ≤ (ansSetImage E w image').1 := by simpa [SUCCEEDED] using hs2
      linarith
  · simp [handled, trGetResult, trExecute, trSetImage, trSetParam, trParams, trLoadScript,
      trRunner] at h
    obtain ⟨rfl, rfl⟩ := h
    refine ⟨(ansParams E w).2, (ansOutDir E w).2, Ret.image bird', trParams E w,
      [⟨Call.SetImage (ansParams E w).1.2 "WorkImage" image'.width image'.height image'.width
          image'.data, Ret.hresult (ansSetImage E w image').1⟩,
        ⟨Call.Execute (ansRunner E w).1.2 (ansParams E w).1.2,
            Ret.hresult (ansExecute E w image').1⟩,
        ⟨Call.GetErrorInfo, Ret.errorInfo (E.GetErrorInfo (ansExecute E w image').2).1⟩,
        ⟨Call.cout (errorLine E (ansExecute E w image').1 (E.GetErrorInfo (ansExecute E w image').2).1),
            Ret.void⟩,
        ⟨ Call.CoUninitialize, Ret.void⟩], by simp [handled, trGetResult, trExecute, trSetImage,
            trSetParam, trParams, trLoadScript, trRunner, ansOutDir, ansFilterSize, errorLine], ?_⟩
    · intro bird image hres hch
      have hbi : bird' = bird := by simpa using hres
      subst hbi
      have hii : image' = image := Option.some.inj (hc.symm.trans hch)
      subst hii
      exact ⟨(ansSetImage E w image').1, by simp, fun _ =>
        ⟨(ansRunner E w).1.2, (ansExecute E w image').1, by simp⟩⟩
  · simp [handled, trGetResult, trExecute, trSetImage, trSetParam, trParams, trLoadScript,
      trRunner] at h
    obtain ⟨rfl, rfl⟩ := h
    refine ⟨(ansParams E w).2, (ansOutDir E w).2, Ret.image bird', trParams E w,
      [⟨Call.SetImage (ansParams E w).1.2 "WorkImage" image'.width image'.height image'.width
          image'.data, Ret.hresult (ansSetImage E w image').1⟩,
        ⟨Call.Execute (ansRunner E w).1.2 (ansParams E w).1.2,
            Ret.hresult (ansExecute E w image').1⟩,
        ⟨Call.GetResult (ansParams E w).1.2 "Elapsed",
          Ret.result (ansGetResult E w image').1.1 (ansGetResult E w image').1.2⟩,
        ⟨Call.GetErrorInfo, Ret.errorInfo (E.GetErrorInfo (ansGetResult E w image').2).1⟩,
        ⟨Call.cout (errorLine E (ansGetResult E w image').1.1 (E.GetErrorInfo (ansGetResult E w image').2).1),
            Ret.void⟩,
        ⟨ Call.CoUninitialize, Ret.void⟩], by simp [handled, trGetResult, trExecute, trSetImage,
            trSetParam, trParams, trLoadScript, trRunner, ansOutDir, ansFilterSize, errorLine], ?_⟩
    · intro bird image hres hch
      have hbi : bird' = bird := by simpa using hres
      subst hbi
      have hii : image' = image := Option.some.inj (hc.symm.trans hch)
      subst hii
      exact ⟨(ansSetImage E w image').1, by simp, fun _ =>
        ⟨(ansRunner E w).1.2, (ansExecute E w image').1, by simp⟩⟩
  · simp [handled, trGetResult, trExecute, trSetImage, trSetParam, trParams, trLoadScript,
      trRunner] at h
    obtain ⟨rfl, rfl⟩ := h
    refine ⟨(ansParams E w).2, (ansOutDir E w).2, Ret.image bird', trParams E w,
      [⟨Call.SetImage (ansParams E w).1.2 "WorkImage" image'.width image'.height image'.width
          image'.data, Ret.hresult (ansSetImage E w image').1⟩,
        ⟨Call.Execute (ansRunner E w).1.2 (ansParams E w).1.2,
            Ret.hresult (ansExecute E w image').1⟩,
        ⟨Call.GetResult (ansParams E w).1.2 "Elapsed",
          Ret.result (ansGetResult E w image').1.1 (ansGetResult E w image').1.2⟩,
        ⟨Call.cout (elapsedLine (ansGetResult E w image').1.2), Ret.void⟩,
        ⟨Call.save_bmp image' "Processed.bmp", Ret.void⟩,
        ⟨ Call.CoUninitialize, Ret.void⟩], by simp [handled, trGetResult, trExecute, trSetImage,
            trSetParam, trParams, trLoadScript, trRunner, ansOutDir, ansFilterSize, errorLine], ?_⟩
    · intro bird image hres hch
      have hbi : bird' = bird := by simpa using hres
      subst hbi
      have hii : image' = image := Option.some.inj (hc.symm.trans hch)
      subst hii
      exact ⟨(ansSetImage E w image').1, by simp, fun _ =>
        ⟨(ansRunner E w).1.2, (ansExecute E w image').1, by simp⟩⟩
  · simp [handled, trGetResult, trExecute, trSetImage, trSetParam, trParams, trLoadScript,
      trRunner] at h
    obtain ⟨rfl, rfl⟩ := h
    refine ⟨(ansParams E w).2, (ansOutDir E w).2, Ret.image bird', trParams E w,
      [⟨Call.SetImage (ansParams E w).1.2 "WorkImage" image'.width image'.height image'.width
          image'.data, Ret.hresult (ansSetImage E w image').1⟩,
        ⟨Call.Execute (ansRunner E w).1.2 (ansParams E w).1.2,
            Ret.hresult (ansExecute E w image').1⟩,
        ⟨Call.GetResult (ansParams E w).1.2 "Elapsed",
          Ret.result (ansGetResult E w image').1.1 (ansGetResult E w image').1.2⟩,
        ⟨Call.cout (elapsedLine (ansGetResult E w image').1.2), Ret.void⟩,
        ⟨Call.save_bmp image' "Processed.bmp", Ret.threw⟩], by simp [handled, trGetResult,
            trExecute, trSetImage, trSetParam, trParams, trLoadScript, trRunner, ansOutDir,
            ansFilterSize, errorLine], ?_⟩
    · intro bird image hres hch
      have hbi : bird' = bird := by simpa using hres
      subst hbi
      have hii : image' = image := Option.some.inj (hc.symm.trans hch)
      subst hii
      exact ⟨(ansSetImage E w image').1, by simp, fun _ =>
        ⟨(ansRunner E w).1.2, (ansExecute E w image').1, by simp⟩⟩

/-- The arguments of `SetImage`, the parameters object that `Execute` receives
and the object that is saved, for a run that loaded `bird` and obtained its
shared channel `image`. -/
theorem setImage_execute_save_agree (E : Extern σ) (w : σ) (bird image : CImg)
    (hload : ⟨Call.CImg_load "Bird.bmp", Ret.image bird⟩ ∈ (main E w).trace)
    (hch : E.get_shared_channel bird 0 = some image) :
    ∃ params hr,
      ⟨Call.SetImage params "WorkImage" image.width image.height image.width image.data,
        Ret.hresult hr⟩ ∈ (main E w).trace ∧
      (∀ self name wd ht st d, Call.SetImage self name wd ht st d ∈ calls (main E w).trace →
        Call.SetImage self name wd ht st d =
          Call.SetImage params "WorkImage" image.width image.height image.width image.data) ∧
      (∀ runner p, Call.Execute runner p ∈ calls (main E w).trace → p = params) ∧
      (∀ img f, Call.save_bmp img f ∈ calls (main E w).trace →
        img = image ∧ f = "Processed.bmp" ∧
        ∃ pre post runner hrE,
          (main E w).trace = pre ++ ⟨Call.Execute runner params, Ret.hresult hrE⟩ :: post ∧
          SUCCEEDED hrE = true ∧
          Call.save_bmp img f ∈ calls post ∧
          ∀ img' f', Call.save_bmp img' f' ∉ calls pre) := by
  rcases main_paths E w with ⟨c1, hm⟩ | ⟨c1, c2, hm⟩ | ⟨c1, c2, c3, hm⟩ | ⟨c1, c2, c3, hb, hm⟩ |
    ⟨bird', c1, c2, c3, hb, hc, hm⟩ | ⟨bird', image', ⟨c1, c2, c3, hb, hc⟩, c8, hm⟩ |
    ⟨bird', image', ⟨c1, c2, c3, hb, hc⟩, c8, c9, hm⟩ |
    ⟨bird', image', ⟨c1, c2, c3, hb, hc⟩, c8, c9, c10, hm⟩ |
    ⟨bird', image', ⟨c1, c2, c3, hb, hc⟩, c8, c9, c10, c11, hm⟩ |
    ⟨bird', image', ⟨c1, c2, c3, hb, hc⟩, c8, c9, c10, c11, hm⟩
  all_goals rw [hm] at hload ⊢
  · simp [handled, trGetResult, trExecute, trSetImage, trSetParam, trParams, trLoadScript,
      trRunner] at hload
  · simp [handled, trGetResult, trExecute, trSetImage, trSetParam, trParams, trLoadScript,
      trRunner] at hload
  · simp [handled, trGetResult, trExecute, trSetImage, trSetParam, trParams, trLoadScript,
      trRunner] at hload
  · simp [handled, trGetResult, trExecute, trSetImage, trSetParam, trParams, trLoadScript,
      trRunner] at hload
  · have hbi : bird' = bird := by
      simp [handled, trGetResult, trExecute, trSetImage, trSetParam, trParams, trLoadScript,
          trRunner] at hload
      first | exact hload | exact hload.symm
    subst hbi
    rw [hc] at hch
    exact absurd hch (by simp)
  · have hbi : bird' = bird := by
      simp [handled, trGetResult, trExecute, trSetImage, trSetParam, trParams, trLoadScript,
          trRunner] at hload
      first | exact hload | exact hload.symm
    subst hbi
    have hii : image' = image := Option.some.inj (hc.symm.trans hch)
    subst hii
    refine ⟨(ansParams E w).1.2, (ansSetImage E w image').1, ?_, ?_, ?_, ?_⟩ <;>
      simp [handled, calls, trGetResult, trExecute, trSetImage, trSetParam, trParams, trLoadScript,
          trRunner]
  · have hbi : bird' = bird := by
      simp [handled, trGetResult, trExecute, trSetImage, trSetParam, trParams, trLoadScript,
          trRunner] at hload
      first | exact hload | exact hload.symm
    subst hbi
    have hii : image' = image := Option.some.inj (hc.symm.trans hch)
    subst hii
    refine ⟨(ansParams E w).1.2, (ansSetImage E w image').1, ?_, ?_, ?_, ?_⟩ <;>
      simp [handled, calls, trGetResult, trExecute, trSetImage, trSetParam, trParams, trLoadScript,
          trRunner]
  · have hbi : bird' = bird := by
      simp [handled, trGetResult, trExecute, trSetImage, trSetParam, trParams, trLoadScript,
          trRunner] at hload
      first | exact hload | exact hload.symm
    subst hbi
    have hii : image' = image := Option.some.inj (hc.symm.trans hch)
    subst hii
    refine ⟨(ansParams E w).1.2, (ansSetImage E w image').1, ?_, ?_, ?_, ?_⟩ <;>
      simp [handled, calls, trGetResult, trExecute, trSetImage, trSetParam, trParams, trLoadScript,
          trRunner]
  · have hbi : bird' = bird := by
      simp [handled, trGetResult, trExecute, trSetImage, trSetParam, trParams, trLoadScript,
          trRunner] at hload
      first | exact hload | exact hload.symm
    subst hbi
    have hii : image' = image := Option.some.inj (hc.symm.trans hch)
    subst hii
    refine ⟨(ansParams E w).1.2, (ansSetImage E w image').1, by simp [trGetResult, trExecute,
        trSetImage, trSetParam, trParams, trLoadScript, trRunner],
      by simp [calls, trGetResult, trExecute, trSetImage, trSetParam, trParams, trLoadScript,
          trRunner], by simp [calls, trGetResult, trExecute, trSetImage, trSetParam, trParams,
          trLoadScript, trRunner], ?_⟩
    intro img f hs
    simp [calls, trGetResult, trExecute, trSetImage, trSetParam, trParams, trLoadScript,
        trRunner] at hs
    obtain ⟨rfl, rfl⟩ := hs
    exact ⟨rfl, rfl, trSetImage E w bird' img,
      [⟨Call.GetResult (ansParams E w).1.2 "Elapsed",
          Ret.result (ansGetResult E w img).1.1 (ansGetResult E w img).1.2⟩,
       ⟨Call.cout (elapsedLine (ansGetResult E w img).1.2), Ret.void⟩,
       ⟨Call.save_bmp img "Processed.bmp", Ret.void⟩,
       ⟨ Call.CoUninitialize, Ret.void⟩],
      (ansRunner E w).1.2, (ansExecute E w img).1, by simp [trGetResult, trExecute, trSetImage,
          trSetParam, trParams, trLoadScript, trRunner], by simp [SUCCEEDED, c9],
      by simp [calls], by simp [calls, trGetResult, trExecute, trSetImage, trSetParam, trParams,
          trLoadScript, trRunner]⟩
  · have hbi : bird' = bird := by
      simp [handled, trGetResult, trExecute, trSetImage, trSetParam, trParams, trLoadScript,
          trRunner] at hload
      first | exact hload | exact hload.symm
    subst hbi
    have hii : image' = image := Option.some.inj (hc.symm.trans hch)
    subst hii
    refine ⟨(ansParams E w).1.2, (ansSetImage E w image').1, by simp [trGetResult, trExecute,
        trSetImage, trSetParam, trParams, trLoadScript, trRunner],
      by simp [calls, trGetResult, trExecute, trSetImage, trSetParam, trParams, trLoadScript,
          trRunner], by simp [calls, trGetResult, trExecute, trSetImage, trSetParam, trParams,
          trLoadScript, trRunner], ?_⟩
    intro img f hs
    simp [calls, trGetResult, trExecute, trSetImage, trSetParam, trParams, trLoadScript,
        trRunner] at hs
    obtain ⟨rfl, rfl⟩ := hs
    exact ⟨rfl, rfl, trSetImage E w bird' img,
      [⟨Call.GetResult (ansParams E w).1.2 "Elapsed",
          Ret.result (ansGetResult E w img).1.1 (ansGetResult E w img).1.2⟩,
       ⟨Call.cout (elapsedLine (ansGetResult E w img).1.2), Ret.void⟩,
       ⟨Call.save_bmp img "Processed.bmp", Ret.threw⟩],
      (ansRunner E w).1.2, (ansExecute E w img).1, by simp [trGetResult, trExecute, trSetImage,
          trSetParam, trParams, trLoadScript, trRunner], by simp [SUCCEEDED, c9],
      by simp [calls], by simp [calls, trGetResult, trExecute, trSetImage, trSetParam, trParams,
          trLoadScript, trRunner]⟩

/-! ## The claims -/

/-- C1, as amended.  In every run of `main` that returns (no `CImg` operation
throws) and in which no checked COM call returns a failure code, the external
calls are, in this order: `CoInitialize`, creation of the `ScriptRunner`,
`LoadScript("../Script.cs", "RunScript")` on it, creation of the
`ScriptParams`, `SetParam("OutDir", "./")`, `SetParam("FilterSize", "21")`,
the loading of `Bird.bmp`, `SetImage("WorkImage", ...)`, `Execute`,
`GetResult("Elapsed")`, the printing of the timing line, the saving of
`Processed.bmp`, `CoUninitialize`; and `main` returns 0. -/
theorem main_success_order (E : Extern σ) (w : σ)
    (hok : ∀ h ∈ checkedResults (main E w).trace, SUCCEEDED h = true)
    (hret : (main E w).ret ≠ none) :
    ∃ runner params image elapsed,
      calls (main E w).trace =
        [Call.CoInitialize,
         Call.CoCreateInstance .ScriptRunner,
         Call.LoadScript runner "../Script.cs" "RunScript",
         Call.CoCreateInstance .ScriptParams,
         Call.SetParam params "OutDir" "./",
         Call.SetParam params "FilterSize" "21",
         Call.CImg_load "Bird.bmp",
         Call.SetImage params "WorkImage" image.width image.height image.width image.data,
         Call.Execute runner params,
         Call.GetResult params "Elapsed",
         Call.cout ("Raw script execution took " ++ elapsed ++ " seconds." ++ "\n"),
         Call.save_bmp image "Processed.bmp",
         Call.CoUninitialize] ∧
      (main E w).ret = some 0 := by
  obtain ⟨bird, image, _, hm⟩ := returns_of_checks_passed E w hok hret
  refine ⟨(ansRunner E w).1.2, (ansParams E w).1.2, image, (ansGetResult E w image).1.2, ?_, ?_⟩
  · rw [hm]
    simp [calls, trGetResult, trExecute, trSetImage, trSetParam, trParams, trLoadScript, trRunner,
        elapsedLine]
  · rw [hm]

/-- C2.  In every run of `main` in which all six checked COM calls are made
and return success codes, standard output holds exactly the line
`Raw script execution took <elapsed> seconds.` and a newline, where
`<elapsed>` is the string `GetResult("Elapsed")` returned in that run. -/
theorem success_output (E : Extern σ) (w : σ)
    (hlen : (checkedResults (main E w).trace).length = 6)
    (hok : ∀ h ∈ checkedResults (main E w).trace, SUCCEEDED h = true) :
    ∃ params hr elapsed,
      ⟨Call.GetResult params "Elapsed", Ret.result hr elapsed⟩ ∈ (main E w).trace ∧
      (main E w).out = "Raw script execution took " ++ elapsed ++ " seconds." ++ "\n" := by
  have hnofail : ∀ h, h ∈ checkedResults (main E w).trace → ¬ h < 0 := by
    intro h hmem hneg
    have := hok h hmem
    simp [SUCCEEDED] at this
    linarith
  rcases main_paths E w with ⟨c1, hm⟩ | ⟨c1, c2, hm⟩ | ⟨c1, c2, c3, hm⟩ | ⟨c1, c2, c3, hb, hm⟩ |
    ⟨bird', c1, c2, c3, hb, hc, hm⟩ | ⟨bird', image', ⟨c1, c2, c3, hb, hc⟩, c8, hm⟩ |
    ⟨bird', image', ⟨c1, c2, c3, hb, hc⟩, c8, c9, hm⟩ |
    ⟨bird', image', ⟨c1, c2, c3, hb, hc⟩, c8, c9, c10, hm⟩ |
    ⟨bird', image', ⟨c1, c2, c3, hb, hc⟩, c8, c9, c10, c11, hm⟩ |
    ⟨bird', image', ⟨c1, c2, c3, hb, hc⟩, c8, c9, c10, c11, hm⟩
  · exact absurd c1 (hnofail _ (by rw [hm]; simp [handled, trGetResult, trExecute, trSetImage,
      trSetParam, trParams, trLoadScript, trRunner, checkedResults, Call.checked, Ret.hr?]))
  · exact absurd c2 (hnofail _ (by rw [hm]; simp [handled, trGetResult, trExecute, trSetImage,
      trSetParam, trParams, trLoadScript, trRunner, checkedResults, Call.checked, Ret.hr?]))
  · exact absurd c3 (hnofail _ (by rw [hm]; simp [handled, trGetResult, trExecute, trSetImage,
      trSetParam, trParams, trLoadScript, trRunner, checkedResults, Call.checked, Ret.hr?]))
  · rw [hm] at hlen; simp [trGetResult, trExecute, trSetImage, trSetParam, trParams, trLoadScript,
      trRunner, checkedResults, Call.checked, Ret.hr?] at hlen
  · rw [hm] at hlen; simp [trGetResult, trExecute, trSetImage, trSetParam, trParams, trLoadScript,
      trRunner, checkedResults, Call.checked, Ret.hr?] at hlen
  · exact absurd c8 (hnofail _ (by rw [hm]; simp [handled, trGetResult, trExecute, trSetImage,
      trSetParam, trParams, trLoadScript, trRunner, checkedResults, Call.checked, Ret.hr?]))
  · exact absurd c9 (hnofail _ (by rw [hm]; simp [handled, trGetResult, trExecute, trSetImage,
      trSetParam, trParams, trLoadScript, trRunner, checkedResults, Call.checked, Ret.hr?]))
  · exact absurd c10 (hnofail _ (by rw [hm]; simp [handled, trGetResult, trExecute, trSetImage,
      trSetParam, trParams, trLoadScript, trRunner, checkedResults, Call.checked, Ret.hr?]))
  · refine ⟨(ansParams E w).1.2, (ansGetResult E w image').1.1, (ansGetResult E w image').1.2,
      ?_, ?_⟩
    · rw [hm]; simp [trGetResult, trExecute, trSetImage, trSetParam, trParams, trLoadScript,
        trRunner]
    · rw [hm]; rfl
  · refine ⟨(ansParams E w).1.2, (ansGetResult E w image').1.1, (ansGetResult E w image').1.2,
      ?_, ?_⟩
    · rw [hm]; simp [trGetResult, trExecute, trSetImage, trSetParam, trParams, trLoadScript,
        trRunner]
    · rw [hm]; rfl

/-- C3, as amended.  Whenever `Bird.bmp` was loaded (as `bird`) and its shared
channel 0 (`image`) obtained, `SetImage` is called, on the parameters object,
with the name `WorkImage`, the width and height of `image`, a stride equal to
that width and the address of the first byte of `image`, and in no other
form; `Execute` only ever receives that same parameters object, and is
called with it whenever `SetImage` returned success; `GetResult` follows a
successful `Execute`, and after a successful `GetResult` the object `image`
itself is saved as `Processed.bmp`; every save is a save of `image` under
that name and comes after a successful `Execute` on those parameters. -/
theorem image_buffer_shared (E : Extern σ) (w : σ) (bird image : CImg)
    (hload : ⟨Call.CImg_load "Bird.bmp", Ret.image bird⟩ ∈ (main E w).trace)
    (hch : E.get_shared_channel bird 0 = some image) :
    (∃ params hr,
      ⟨Call.SetImage params "WorkImage" image.width image.height image.width image.data,
        Ret.hresult hr⟩ ∈ (main E w).trace ∧
      (∀ self name wd ht st d, Call.SetImage self name wd ht st d ∈ calls (main E w).trace →
        Call.SetImage self name wd ht st d =
          Call.SetImage params "WorkImage" image.width image.height image.width image.data) ∧
      (∀ runner p, Call.Execute runner p ∈ calls (main E w).trace → p = params) ∧
      (∀ img f, Call.save_bmp img f ∈ calls (main E w).trace →
        img = image ∧ f = "Processed.bmp" ∧
        ∃ pre post runner hrE,
          (main E w).trace = pre ++ ⟨Call.Execute runner params, Ret.hresult hrE⟩ :: post ∧
          SUCCEEDED hrE = true ∧
          Call.save_bmp img f ∈ calls post ∧
          ∀ img' f', Call.save_bmp img' f' ∉ calls pre)) ∧
    (∀ self hrS,
      ⟨Call.SetImage self "WorkImage" image.width image.height image.width image.data,
        Ret.hresult hrS⟩ ∈ (main E w).trace →
      SUCCEEDED hrS = true →
      ∃ runner hrE, ⟨Call.Execute runner self, Ret.hresult hrE⟩ ∈ (main E w).trace) ∧
    (∀ runner p hrE, ⟨Call.Execute runner p, Ret.hresult hrE⟩ ∈ (main E w).trace →
      SUCCEEDED hrE = true →
      ∃ hrG elapsed,
        ⟨Call.GetResult p "Elapsed", Ret.result hrG elapsed⟩ ∈ (main E w).trace) ∧
    (∀ p hrG elapsed,
      ⟨Call.GetResult p "Elapsed", Ret.result hrG elapsed⟩ ∈ (main E w).trace →
      SUCCEEDED hrG = true →
      ∃ rs, ⟨Call.save_bmp image "Processed.bmp", rs⟩ ∈ (main E w).trace) := by
  have hagree := setImage_execute_save_agree E w bird image hload hch
  refine ⟨hagree, ?_, ?_, ?_⟩
  · intro self hrS h hs
    exact execute_follows_setImage E w self _ _ _ _ _ hrS h hs
  · intro runner p hrE h hs
    exact getResult_follows_execute E w runner p hrE h hs
  · intro p hrG elapsed h hs
    obtain ⟨img, rs, hsave⟩ := save_follows_getResult E w p _ hrG elapsed h hs
    obtain ⟨_, _, _, _, _, hall⟩ := hagree
    have hmem : Call.save_bmp img "Processed.bmp" ∈ calls (main E w).trace :=
      List.mem_map_of_mem Event.call hsave
    obtain ⟨rfl, _⟩ := hall img "Processed.bmp" hmem
    exact ⟨rs, hsave⟩

/-- C4.  On every path through `main` that returns, the first call is
`CoInitialize`, whatever `HRESULT` it yields, the last call is
`CoUninitialize`, and each of the two is called exactly once, so that every
other call lies between them. -/
theorem com_bracket (E : Extern σ) (w : σ) (hret : (main E w).ret ≠ none) :
    (main E w).trace.head? = some ⟨Call.CoInitialize, Ret.hresult (E.CoInitialize w).1⟩ ∧
    (main E w).trace.getLast? = some ⟨ Call.CoUninitialize, Ret.void⟩ ∧
    (calls (main E w).trace).count Call.CoInitialize = 1 ∧
    (calls (main E w).trace).count Call.CoUninitialize = 1 := by
  rcases main_paths E w with ⟨c1, hm⟩ | ⟨c1, c2, hm⟩ | ⟨c1, c2, c3, hm⟩ | ⟨c1, c2, c3, hb, hm⟩ |
    ⟨bird', c1, c2, c3, hb, hc, hm⟩ | ⟨bird', image', ⟨c1, c2, c3, hb, hc⟩, c8, hm⟩ |
    ⟨bird', image', ⟨c1, c2, c3, hb, hc⟩, c8, c9, hm⟩ |
    ⟨bird', image', ⟨c1, c2, c3, hb, hc⟩, c8, c9, c10, hm⟩ |
    ⟨bird', image', ⟨c1, c2, c3, hb, hc⟩, c8, c9, c10, c11, hm⟩ |
    ⟨bird', image', ⟨c1, c2, c3, hb, hc⟩, c8, c9, c10, c11, hm⟩
  all_goals rw [hm] at hret ⊢
  · simp [calls, handled, trGetResult, trExecute, trSetImage, trSetParam, trParams, trLoadScript,
      trRunner, ansInit]
  · simp [calls, handled, trGetResult, trExecute, trSetImage, trSetParam, trParams, trLoadScript,
      trRunner, ansInit]
  · simp [calls, handled, trGetResult, trExecute, trSetImage, trSetParam, trParams, trLoadScript,
      trRunner, ansInit]
  · exact absurd rfl hret
  · exact absurd rfl hret
  · simp [calls, handled, trGetResult, trExecute, trSetImage, trSetParam, trParams, trLoadScript,
      trRunner, ansInit]
  · simp [calls, handled, trGetResult, trExecute, trSetImage, trSetParam, trParams, trLoadScript,
      trRunner, ansInit]
  · simp [calls, handled, trGetResult, trExecute, trSetImage, trSetParam, trParams, trLoadScript,
      trRunner, ansInit]
  · simp [calls, handled, trGetResult, trExecute, trSetImage, trSetParam, trParams, trLoadScript,
      trRunner, ansInit]
  · exact absurd rfl hret

/-- C5.  Constructing a `CheckedHRESULT` from `hr`, or assigning `hr` to one,
throws a `_com_error` carrying `hr` exactly when `hr < 0`, which is exactly
when `SUCCEEDED(hr)` is false; otherwise nothing is thrown, no call is made
and converting back gives `hr` (so for `S_FALSE`); a default-constructed
object converts to `S_OK`, which is 0. -/
theorem checkedHRESULT_throws_iff_failed (E : Extern σ) (s : St σ) (self : CheckedHRESULT)
    (hr : HRESULT) :
    ((∃ d s', CheckedHRESULT.ctor E hr s = (.error (._com_error hr d), s')) ↔ hr < 0) ∧
    ((∃ d s', self.assign E hr s = (.error (._com_error hr d), s')) ↔ hr < 0) ∧
    ((∃ c, CheckedHRESULT.ctor E hr s = (.ok c, s) ∧ c.toHRESULT = hr) ↔ 0 ≤ hr) ∧
    ((∃ c, self.assign E hr s = (.ok c, s) ∧ c.toHRESULT = hr) ↔ 0 ≤ hr) ∧
    (SUCCEEDED hr = false ↔ hr < 0) ∧
    CheckedHRESULT.ctor E S_FALSE s = (.ok ⟨S_FALSE⟩, s) ∧
    CheckedHRESULT.default.toHRESULT = S_OK ∧ S_OK = 0 := by
  rw [CheckedHRESULT.ctor_apply, CheckedHRESULT.assign_apply, CheckedHRESULT.ctor_apply]
  by_cases c : hr < 0
  · have c' : ¬ (0 ≤ hr) := not_le.mpr c
    simp [c, c', SUCCEEDED, S_FALSE, S_OK, CheckedHRESULT.default, CheckedHRESULT.toHRESULT]
  · have c' : 0 ≤ hr := not_lt.mp c
    simp [c, c', SUCCEEDED, S_FALSE, S_OK, CheckedHRESULT.default, CheckedHRESULT.toHRESULT]

/-- C6, as amended.  If a checked COM call of a run returns a failure code
`h`, the run is cut short by it: no later step of the sequence is executed
(only `GetErrorInfo`, the error line and `CoUninitialize` follow), no earlier
check failed, `Processed.bmp` is not saved, the error line is printed and
`main` returns exactly `h`, which is not zero.  And `main` returns 0 if and
only if no checked call failed and `main` returns at all, that is, no `CImg`
operation threw. -/
theorem first_failure_cuts_short (E : Extern σ) (w : σ) :
    (∀ h ∈ checkedResults (main E w).trace, h < 0 → CutShortBy E (main E w) h) ∧
    ((main E w).ret = some 0 ↔
      (∀ h ∈ checkedResults (main E w).trace, SUCCEEDED h = true) ∧ (main E w).ret ≠ none) := by
  refine ⟨fun h hmem hneg => cutShort_of_failure E w h hmem hneg, ?_, ?_⟩
  · intro h0
    refine ⟨?_, by simp [h0]⟩
    intro h hmem
    by_contra hs
    have hneg : h < 0 := by simpa [SUCCEEDED] using hs
    obtain ⟨_, _, _, _, _, _, _, _, _, hret, hne⟩ := cutShort_of_failure E w h hmem hneg
    rw [h0] at hret
    exact hne (Option.some.inj hret).symm
  · rintro ⟨hok, hret⟩
    obtain ⟨_, _, _, hm⟩ := returns_of_checks_passed E w hok hret
    rw [hm]

/-- C7.  The `HRESULT`s of the `SetParam` calls do not influence `main`: two
runs that differ only in what `SetParam` returns (success or failure codes)
return the same value, make the same calls with the same arguments in the
same order, get the same results from every other call, print the same text
and leave the same world.  And whatever the two calls return, `main` goes on:
once the parameters object is created, both `SetParam` calls are made and
the very next call is the loading of `Bird.bmp`; when the image and its
shared channel are obtained `SetImage` follows on the same object, and
`Execute` with that object follows a successful `SetImage`. -/
theorem setParam_results_ignored (E : Extern σ) (f g : Ptr → String → String → σ → HRESULT)
    (w : σ) :
    (main (withSetParamResult E f) w).ret = (main (withSetParamResult E g) w).ret ∧
    calls (main (withSetParamResult E f) w).trace =
      calls (main (withSetParamResult E g) w).trace ∧
    (main (withSetParamResult E f) w).trace.filter (fun ev => !ev.call.isSetParam) =
      (main (withSetParamResult E g) w).trace.filter (fun ev => !ev.call.isSetParam) ∧
    (main (withSetParamResult E f) w).out = (main (withSetParamResult E g) w).out ∧
    (main (withSetParamResult E f) w).world = (main (withSetParamResult E g) w).world ∧
    (∀ hr p,
      ⟨Call.CoCreateInstance .ScriptParams, Ret.created hr p⟩ ∈
        (main (withSetParamResult E f) w).trace →
      SUCCEEDED hr = true →
      ∃ w1 w2 res pre post,
        (main (withSetParamResult E f) w).trace =
          pre ++ ⟨Call.SetParam p "OutDir" "./", Ret.hresult (f p "OutDir" "./" w1)⟩ ::
            ⟨Call.SetParam p "FilterSize" "21", Ret.hresult (f p "FilterSize" "21" w2)⟩ ::
            ⟨Call.CImg_load "Bird.bmp", res⟩ :: post ∧
        ∀ bird image, res = Ret.image bird → E.get_shared_channel bird 0 = some image →
          ∃ hrS,
            ⟨Call.SetImage p "WorkImage" image.width image.height image.width image.data,
              Ret.hresult hrS⟩ ∈ post ∧
            (SUCCEEDED hrS = true →
              ∃ runner hrE, ⟨Call.Execute runner p, Ret.hresult hrE⟩ ∈ post)) := by
  have h := flat_modSetParam E f g w
  simp only [Run.modSetParam, Prod.mk.injEq] at h
  simp only [← main_eq_flat] at h
  obtain ⟨h1, h2, h3, h4, h5⟩ := h
  exact ⟨h1, h2, h3, h4, h5, fun hr p hmem hs =>
    load_follows_params (withSetParamResult E f) w hr p hmem hs⟩

/-! ## The claims at sample environments -/

/-- C1 as stated fails: when `Processed.bmp` cannot be written, all six
checked calls have been made and have succeeded, yet `main` does not
return 0. -/
theorem success_order_fails_when_save_throws :
    (checkedResults (main envSaveThrows 0).trace).length = 6 ∧
    (∀ h ∈ checkedResults (main envSaveThrows 0).trace, SUCCEEDED h = true) ∧
    Call.save_bmp ⟨640, 480, 4096, true⟩ "Processed.bmp" ∈ calls (main envSaveThrows 0).trace ∧
    ¬ (main envSaveThrows 0).ret = some 0 := by
  decide

/-- The premises of C1 as amended hold in the environment where every call succeeds. -/
theorem main_success_order_witness :
    (∀ h ∈ checkedResults (main envOK 0).trace, SUCCEEDED h = true) ∧
    (main envOK 0).ret ≠ none ∧
    ∃ runner params image elapsed,
      calls (main envOK 0).trace =
        [Call.CoInitialize,
         Call.CoCreateInstance .ScriptRunner,
         Call.LoadScript runner "../Script.cs" "RunScript",
         Call.CoCreateInstance .ScriptParams,
         Call.SetParam params "OutDir" "./",
         Call.SetParam params "FilterSize" "21",
         Call.CImg_load "Bird.bmp",
         Call.SetImage params "WorkImage" image.width image.height image.width image.data,
         Call.Execute runner params,
         Call.GetResult params "Elapsed",
         Call.cout ("Raw script execution took " ++ elapsed ++ " seconds." ++ "\n"),
         Call.save_bmp image "Processed.bmp",
         Call.CoUninitialize] ∧
      (main envOK 0).ret = some 0 :=
  ⟨by decide, by decide, main_success_order envOK 0 (by decide) (by decide)⟩

/-- The premises of C2 hold in the environment where every call succeeds. -/
theorem success_output_witness :
    (checkedResults (main envOK 0).trace).length = 6 ∧
    (∀ h ∈ checkedResults (main envOK 0).trace, SUCCEEDED h = true) ∧
    ∃ params hr elapsed,
      ⟨Call.GetResult params "Elapsed", Ret.result hr elapsed⟩ ∈ (main envOK 0).trace ∧
      (main envOK 0).out = "Raw script execution took " ++ elapsed ++ " seconds." ++ "\n" :=
  ⟨by decide, by decide, success_output envOK 0 (by decide) (by decide)⟩

/-- C3 as stated fails: when the loaded image has no channel 0,
`get_shared_channel` throws, the load is the last call and `SetImage` is
never called. -/
theorem setImage_not_called_when_channel_throws :
    (⟨Call.CImg_load "Bird.bmp", Ret.image ⟨640, 480, 4096, false⟩⟩ : Event) ∈
      (main envChannelThrows 0).trace ∧
    calls (main envChannelThrows 0).trace =
      [Call.CoInitialize,
       Call.CoCreateInstance .ScriptRunner,
       Call.LoadScript 1 "../Script.cs" "RunScript",
       Call.CoCreateInstance .ScriptParams,
       Call.SetParam 2 "OutDir" "./",
       Call.SetParam 2 "FilterSize" "21",
       Call.CImg_load "Bird.bmp"] ∧
    (main envChannelThrows 0).ret = none := by
  decide

/-- The premises of C3 as amended hold in the environment where every call
succeeds: the image is 640 by 480 at address 4096, its shared channel is a
view on it, `SetImage` gets these values, `Execute` is called with the same
parameters object and the view is saved. -/
theorem image_buffer_shared_witness :
    (⟨Call.CImg_load "Bird.bmp", Ret.image ⟨640, 480, 4096, false⟩⟩ : Event) ∈
      (main envOK 0).trace ∧
    envOK.get_shared_channel ⟨640, 480, 4096, false⟩ 0 = some ⟨640, 480, 4096, true⟩ ∧
    (⟨Call.SetImage 2 "WorkImage" 640 480 640 4096, Ret.hresult 0⟩ : Event) ∈
      (main envOK 0).trace ∧
    (∃ runner hrE, (⟨Call.Execute runner 2, Ret.hresult hrE⟩ : Event) ∈ (main envOK 0).trace) ∧
    (∃ rs, (⟨Call.save_bmp ⟨640, 480, 4096, true⟩ "Processed.bmp", rs⟩ : Event) ∈
      (main envOK 0).trace) :=
  ⟨by decide, by decide, by decide,
    (image_buffer_shared envOK 0 ⟨640, 480, 4096, false⟩ ⟨640, 480, 4096, true⟩
      (by decide) (by decide)).2.1 2 0 (by decide) (by decide),
    (image_buffer_shared envOK 0 ⟨640, 480, 4096, false⟩ ⟨640, 480, 4096, true⟩
      (by decide) (by decide)).2.2.2 2 0 "0.25" (by decide) (by decide)⟩

/-- The premise of C4 holds on a failure path: `LoadScript` fails and `main` returns. -/
theorem com_bracket_witness :
    (main envLoadScriptFails 0).ret ≠ none ∧
    (main envLoadScriptFails 0).trace.head? = some ⟨Call.CoInitialize, Ret.hresult 0⟩ ∧
    (main envLoadScriptFails 0).trace.getLast? = some ⟨ Call.CoUninitialize, Ret.void⟩ ∧
    (calls (main envLoadScriptFails 0).trace).count Call.CoInitialize = 1 ∧
    (calls (main envLoadScriptFails 0).trace).count Call.CoUninitialize = 1 :=
  ⟨by decide, com_bracket envLoadScriptFails 0 (by decide)⟩

/-- The equivalence of C6 as stated fails: when `Processed.bmp` cannot be
written, every checked call has succeeded and `main` does not return 0. -/
theorem returns_zero_iff_fails_when_save_throws :
    ¬ ((main envSaveThrows 0).ret = some 0 ↔
        ∀ h ∈ checkedResults (main envSaveThrows 0).trace, SUCCEEDED h = true) ∧
    ¬ ((main envSaveThrows 0).ret = some 0 ↔
        (checkedResults (main envSaveThrows 0).trace).length = 6 ∧
        ∀ h ∈ checkedResults (main envSaveThrows 0).trace, SUCCEEDED h = true) := by
  decide

/-- The premises of C6 hold when `LoadScript` fails with `E_FAIL`. -/
theorem first_failure_cuts_short_witness :
    E_FAIL ∈ checkedResults (main envLoadScriptFails 0).trace ∧ E_FAIL < 0 ∧
    CutShortBy envLoadScriptFails (main envLoadScriptFails 0) E_FAIL ∧
    (main envLoadScriptFails 0).ret = some E_FAIL :=
  ⟨by decide, by decide,
    (first_failure_cuts_short envLoadScriptFails 0).1 E_FAIL (by decide) (by decide),
    by decide⟩

/-- C7 at a sample: both `SetParam` calls fail with `E_FAIL`, the next call is
still the loading of `Bird.bmp`, `SetImage` and `Execute` follow, and `main`
returns 0. -/
theorem setParam_results_ignored_witness :
    (⟨Call.CoCreateInstance .ScriptParams, Ret.created 0 2⟩ : Event) ∈
      (main (withSetParamResult envOK fun _ _ _ _ => E_FAIL) 0).trace ∧
    SUCCEEDED 0 = true ∧
    (main (withSetParamResult envOK fun _ _ _ _ => E_FAIL) 0).ret = some 0 ∧
    ∃ res pre post,
      (main (withSetParamResult envOK fun _ _ _ _ => E_FAIL) 0).trace =
        pre ++ ⟨Call.SetParam 2 "OutDir" "./", Ret.hresult E_FAIL⟩ ::
          ⟨Call.SetParam 2 "FilterSize" "21", Ret.hresult E_FAIL⟩ ::
          ⟨Call.CImg_load "Bird.bmp", res⟩ :: post ∧
      ∀ bird image, res = Ret.image bird → envOK.get_shared_channel bird 0 = some image →
        ∃ hrS,
          ⟨Call.SetImage 2 "WorkImage" image.width image.height image.width image.data,
            Ret.hresult hrS⟩ ∈ post ∧
          (SUCCEEDED hrS = true →
            ∃ runner hrE, ⟨Call.Execute runner 2, Ret.hresult hrE⟩ ∈ post) :=
  ⟨by decide, by decide,
    ((setParam_results_ignored envOK (fun _ _ _ _ => E_FAIL) (fun _ _ _ _ => S_OK) 0).1).trans
      (by decide),
    ((setParam_results_ignored envOK (fun _ _ _ _ => E_FAIL) (fun _ _ _ _ => S_OK)
      0).2.2.2.2.2 0 2 (by decide) (by decide)).elim fun _ h1 => h1.elim fun _ h2 => h2⟩

end LegacyClient
